import Mathlib

/-!
Verification of the tek-game-runtime interception engine against its design
specification.  The definitions below are shallow embeddings of the code in
`src/steam_api.{hpp,cpp}`, `src/steam/346110.cpp` and `src/tek-steamclient.cpp`:
version words are `Nat` (64-bit file versions), method tables are lists,
pointers are `Nat` identifiers, and the stateful bootstrap is modelled as a
pure function from an environment (results of the external calls) to a result
record plus an event trace.
-/

namespace TekGameRuntime

/-! ### Interface shape tables (steam_api.cpp, `SteamAPI_Init` version chains)

Each `if (ver >= threshold)` / `else if` / `else` chain that fills a
`wrapper_desc`'s `num_methods` and `vm_idxs` is represented as a list of
`VmBranch` records ordered exactly as in the source (descending thresholds,
final `else` = threshold 0).  `assigns` lists the `vm_idxs[id] = slot`
assignments of that branch in source order; ids not assigned stay at the
constructor default `-1` (`wrapper_desc::wrapper_desc` does `vm_idxs.fill(-1)`).
-/

/-- One version branch of an interface: threshold, `num_methods`, and the
`vm_idxs` assignments `(logical id, slot)` performed in that branch. -/
structure VmBranch where
  threshold : Nat
  numMethods : Nat
  assigns : List (Nat × Nat)
deriving DecidableEq, Repr

/-- Identity `for` loop `vm_idxs[i] = i` for `i < n`. -/
def idAssigns (n : Nat) : List (Nat × Nat) :=
  (List.range n).map (fun i => (i, i))

/-- Resolution of a version against a branch chain: the first branch (in list
order, i.e. descending threshold order) whose threshold is `≤ v`.  This is the
meaning of the source's `if/else if` cascade on `ver`. -/
def selectBranch (bs : List VmBranch) (v : Nat) : Option VmBranch :=
  bs.find? (fun b => decide (b.threshold ≤ v))

/-- `vm_idxs` lookup for a branch: the slot assigned to logical id `id`, or the
absent sentinel `-1`. -/
def vmIdx (b : VmBranch) (id : Nat) : Int :=
  match b.assigns.find? (fun p => p.1 == id) with
  | some p => (p.2 : Int)
  | none => -1

/-- Declarative resolution relation: `resolvesTo bs v b` holds when `b` is the
first record of `bs` whose threshold is `≤ v`. -/
inductive resolvesTo : List VmBranch → Nat → VmBranch → Prop
  | head {b : VmBranch} {rest : List VmBranch} {v : Nat} :
      b.threshold ≤ v → resolvesTo (b :: rest) v b
  | tail {b : VmBranch} {rest : List VmBranch} {v : Nat} {r : VmBranch} :
      ¬ b.threshold ≤ v → resolvesTo rest v r → resolvesTo (b :: rest) v r

theorem resolvesTo_unique {bs : List VmBranch} {v : Nat} {r r' : VmBranch}
    (h : resolvesTo bs v r) (h' : resolvesTo bs v r') : r = r' := by
  induction h with
  | head hle =>
    cases h' with
    | head _ => rfl
    | tail hnle _ => exact absurd hle hnle
  | tail hnle _ ih =>
    cases h' with
    | head hle => exact absurd hle hnle
    | tail _ htail => exact ih htail

theorem resolvesTo_of_selectBranch {bs : List VmBranch} {v : Nat} {r : VmBranch}
    (h : selectBranch bs v = some r) : resolvesTo bs v r := by
  induction bs with
  | nil => simp [selectBranch] at h
  | cons b rest ih =>
    by_cases hle : b.threshold ≤ v
    · have : b = r := by
        simpa [selectBranch, List.find?, hle] using h
      exact this ▸ resolvesTo.head hle
    · refine resolvesTo.tail hle (ih ?_)
      simpa [selectBranch, List.find?, hle] using h

theorem selectBranch_isSome_of_catchAll {bs : List VmBranch} {v : Nat}
    (h : ∃ b ∈ bs, b.threshold = 0) : ∃ r, selectBranch bs v = some r := by
  obtain ⟨b, hmem, hzero⟩ := h
  have : ∃ x ∈ bs, (fun b => decide (b.threshold ≤ v)) x = true := by
    exact ⟨b, hmem, by simp [hzero]⟩
  obtain ⟨r, hr⟩ := Option.isSome_iff_exists.mp (List.find?_isSome.mpr this)
  exact ⟨r, hr⟩

/-- Totality and uniqueness of resolution for any chain ending in a
threshold-0 catch-all. -/
theorem resolve_existsUnique {bs : List VmBranch} (hz : ∃ b ∈ bs, b.threshold = 0)
    (v : Nat) : ∃! r, resolvesTo bs v r := by
  obtain ⟨r, hr⟩ := selectBranch_isSome_of_catchAll (v := v) hz
  exact ⟨r, resolvesTo_of_selectBranch hr,
    fun r' h' => resolvesTo_unique h' (resolvesTo_of_selectBranch hr)⟩

/-- ISteamApps chain, steam_api.cpp lines 364-382 (`num_methods` selection) and
lines 388-390 (identity `vm_idxs` loop over the selected `num_methods`). -/
def ISteamApps_branches : List VmBranch := [
  ⟨0x0003002A003D0042, 33, idAssigns 33⟩,
  ⟨0x0002003B0033002B, 24, idAssigns 24⟩,
  ⟨0x00010062001F0049, 22, idAssigns 22⟩,
  ⟨0x0001001E0032002E, 20, idAssigns 20⟩,
  ⟨0x0000006000210030, 14, idAssigns 14⟩,
  ⟨0x0000000000000000, 8, idAssigns 8⟩
]

/-- Compile-time maximum table size for ISteamApps
(`ISteamApps_num_methods` enum sentinel). -/
def ISteamApps_maxMethods : Nat := 33

/-- The three-record table of the specification's end-to-end scenarios A and B:
thresholds `{0x0003002A003D0042 → 33, 0x0002003B0033002B → 24, 0 → 8}`. -/
def scenarioTable : List VmBranch := [
  ⟨0x0003002A003D0042, 33, idAssigns 33⟩,
  ⟨0x0002003B0033002B, 24, idAssigns 24⟩,
  ⟨0x0000000000000000, 8, idAssigns 8⟩
]

/-- C1 counterexample: on the code's ISteamApps chain, version
`0x0001000000000000` does not resolve to the 8-method catch-all shape; it
resolves to the 14-method shape of threshold `0x0000006000210030`. -/
theorem C1_counterexample :
    (selectBranch ISteamApps_branches 0x0001000000000000).map VmBranch.numMethods
      = some 14 ∧ (14 : Nat) ≠ 8 := by
  constructor
  · rfl
  · decide

/-- C1 (amended): resolution is total and unique for every version word on the
ISteamApps chain; version `0x0003002A003D0042` resolves to the 33-method shape;
version `0x0001000000000000` resolves to the 14-method shape on the code's
six-record ISteamApps chain, and to the 8-method catch-all only on the
specification's three-record scenario table. -/
theorem C1_resolution :
    (∀ v : Nat, ∃! r, resolvesTo ISteamApps_branches v r) ∧
    (selectBranch ISteamApps_branches 0x0003002A003D0042).map VmBranch.numMethods
      = some 33 ∧
    (selectBranch ISteamApps_branches 0x0001000000000000).map VmBranch.numMethods
      = some 14 ∧
    (selectBranch scenarioTable 0x0001000000000000).map VmBranch.numMethods
      = some 8 := by
  refine ⟨fun v => resolve_existsUnique ?_ v, rfl, rfl, rfl⟩
  exact ⟨⟨0, 8, idAssigns 8⟩, by simp [ISteamApps_branches], rfl⟩

/-! ### Remaining interface chains (steam_api.cpp lines 392-1714)

`ISteamMatchmaking` (392-449), `ISteamMatchmakingServers` (457-468, no version
branching), `ISteamUGC` (471-1462, applied only when the interface pointer was
obtained), `ISteamUser` (1470-1681) and `ISteamUtils` (1688-1714, identity
`vm_idxs` loop).  Data transcribed branch by branch from the source; the
`maxMethods` values are the corresponding `_num_methods` enum sentinels from
steam_api.hpp.
-/

def ISteamMatchmaking_branches : List VmBranch := [
  ⟨0x00010017002D005D, 38, idAssigns 38⟩,
  ⟨0x0000000000000000, 36, [
    (0, 0),  -- ISteamMatchmaking_m_GetFavoriteGameCount
    (1, 1),  -- ISteamMatchmaking_m_GetFavoriteGame
    (2, 2),  -- ISteamMatchmaking_m_AddFavoriteGame
    (3, 3),  -- ISteamMatchmaking_m_RemoveFavoriteGame
    (4, 4),  -- ISteamMatchmaking_m_RequestLobbyList
    (5, 5),  -- ISteamMatchmaking_m_AddRequestLobbyListStringFilter
    (6, 6),  -- ISteamMatchmaking_m_AddRequestLobbyListNumericalFilter
    (7, 7),  -- ISteamMatchmaking_m_AddRequestLobbyListNearValueFilter
    (8, 8),  -- ISteamMatchmaking_m_AddRequestLobbyListFilterSlotsAvailable
    (9, 9),  -- ISteamMatchmaking_m_AddRequestLobbyListDistanceFilter
    (10, 10),  -- ISteamMatchmaking_m_AddRequestLobbyListResultCountFilter
    (12, 11),  -- ISteamMatchmaking_m_GetLobbyByIndex
    (13, 12),  -- ISteamMatchmaking_m_CreateLobby
    (14, 13),  -- ISteamMatchmaking_m_JoinLobby
    (15, 14),  -- ISteamMatchmaking_m_LeaveLobby
    (16, 15),  -- ISteamMatchmaking_m_InviteUserToLobby
    (17, 16),  -- ISteamMatchmaking_m_GetNumLobbyMembers
    (18, 17),  -- ISteamMatchmaking_m_GetLobbyMemberByIndex
    (19, 18),  -- ISteamMatchmaking_m_GetLobbyData
    (20, 19),  -- ISteamMatchmaking_m_SetLobbyData
    (21, 20),  -- ISteamMatchmaking_m_GetLobbyDataCount
    (22, 21),  -- ISteamMatchmaking_m_GetLobbyDataByIndex
    (23, 22),  -- ISteamMatchmaking_m_DeleteLobbyData
    (24, 23),  -- ISteamMatchmaking_m_GetLobbyMemberData
    (25, 24),  -- ISteamMatchmaking_m_SetLobbyMemberData
    (26, 25),  -- ISteamMatchmaking_m_SendLobbyChatMsg
    (27, 26),  -- ISteamMatchmaking_m_GetLobbyChatEntry
    (28, 27),  -- ISteamMatchmaking_m_RequestLobbyData
    (29, 28),  -- ISteamMatchmaking_m_SetLobbyGameServer
    (30, 29),  -- ISteamMatchmaking_m_GetLobbyGameServer
    (31, 30),  -- ISteamMatchmaking_m_SetLobbyMemberLimit
    (32, 31),  -- ISteamMatchmaking_m_GetLobbyMemberLimit
    (33, 32),  -- ISteamMatchmaking_m_SetLobbyType
    (34, 33),  -- ISteamMatchmaking_m_SetLobbyJoinable
    (35, 34),  -- ISteamMatchmaking_m_GetLobbyOwner
    (36, 35)  -- ISteamMatchmaking_m_SetLobbyOwner
  ]⟩
]

def ISteamMatchmaking_maxMethods : Nat := 38

def ISteamMatchmakingServers_branches : List VmBranch := [
  ⟨0x0000000000000000, 17, idAssigns 17⟩
]

def ISteamMatchmakingServers_maxMethods : Nat := 17

def ISteamUGC_branches : List VmBranch := [
  ⟨0x0009003C002C000A, 96, idAssigns 96⟩,
  ⟨0x0008006100630046, 94, idAssigns 94⟩,
  ⟨0x0008002100090017, 90, [
    (0, 0),  -- ISteamUGC_m_CreateQueryUserUGCRequest
    (1, 1),  -- ISteamUGC_m_CreateQueryAllUGCRequestCursor
    (2, 2),  -- ISteamUGC_m_CreateQueryAllUGCRequestPage
    (3, 3),  -- ISteamUGC_m_CreateQueryUGCDetailsRequest
    (4, 4),  -- ISteamUGC_m_SendQueryUGCRequest
    (5, 5),  -- ISteamUGC_m_GetQueryUGCResult
    (6, 6),  -- ISteamUGC_m_GetQueryUGCNumTags
    (7, 7),  -- ISteamUGC_m_GetQueryUGCTag
    (8, 8),  -- ISteamUGC_m_GetQueryUGCTagDisplayName
    (9, 9),  -- ISteamUGC_m_GetQueryUGCPreviewURL
    (10, 10),  -- ISteamUGC_m_GetQueryUGCMetadata
    (11, 11),  -- ISteamUGC_m_GetQueryUGCChildren
    (12, 12),  -- ISteamUGC_m_GetQueryUGCStatistic
    (13, 13),  -- ISteamUGC_m_GetQueryUGCNumAdditionalPreviews
    (14, 14),  -- ISteamUGC_m_GetQueryUGCAdditionalPreview
    (15, 15),  -- ISteamUGC_m_GetQueryUGCNumKeyValueTags
    (16, 16),  -- ISteamUGC_m_GetQueryFirstUGCKeyValueTag
    (17, 17),  -- ISteamUGC_m_GetQueryUGCKeyValueTag
    (20, 18),  -- ISteamUGC_m_GetQueryUGCContentDescriptors
    (21, 19),  -- ISteamUGC_m_ReleaseQueryUGCRequest
    (22, 20),  -- ISteamUGC_m_AddRequiredTag
    (23, 21),  -- ISteamUGC_m_AddRequiredTagGroup
    (24, 22),  -- ISteamUGC_m_AddExcludedTag
    (25, 23),  -- ISteamUGC_m_SetReturnOnlyIDs
    (26, 24),  -- ISteamUGC_m_SetReturnKeyValueTags
    (27, 25),  -- ISteamUGC_m_SetReturnLongDescription
    (28, 26),  -- ISteamUGC_m_SetReturnMetadata
    (29, 27),  -- ISteamUGC_m_SetReturnChildren
    (30, 28),  -- ISteamUGC_m_SetReturnAdditionalPreviews
    (31, 29),  -- ISteamUGC_m_SetReturnTotalOnly
    (32, 30),  -- ISteamUGC_m_SetReturnPlaytimeStats
    (33, 31),  -- ISteamUGC_m_SetLanguage
    (34, 32),  -- ISteamUGC_m_SetAllowCachedResponse
    (36, 33),  -- ISteamUGC_m_SetCloudFileNameFilter
    (37, 34),  -- ISteamUGC_m_SetMatchAnyTag
    (38, 35),  -- ISteamUGC_m_SetSearchText
    (39, 36),  -- ISteamUGC_m_SetRankedByTrendDays
    (40, 37),  -- ISteamUGC_m_SetTimeCreatedDateRange
    (41, 38),  -- ISteamUGC_m_SetTimeUpdatedDateRange
    (42, 39),  -- ISteamUGC_m_AddRequiredKeyValueTag
    (43, 40),  -- ISteamUGC_m_RequestUGCDetails
    (44, 41),  -- ISteamUGC_m_CreateItem
    (45, 42),  -- ISteamUGC_m_StartItemUpdate
    (46, 43),  -- ISteamUGC_m_SetItemTitle
    (47, 44),  -- ISteamUGC_m_SetItemDescription
    (48, 45),  -- ISteamUGC_m_SetItemUpdateLanguage
    (49, 46),  -- ISteamUGC_m_SetItemMetadata
    (50, 47),  -- ISteamUGC_m_SetItemVisibility
    (51, 48),  -- ISteamUGC_m_SetItemTags
    (52, 49),  -- ISteamUGC_m_SetItemContent
    (53, 50),  -- ISteamUGC_m_SetItemPreview
    (54, 51),  -- ISteamUGC_m_SetAllowLegacyUpload
    (55, 52),  -- ISteamUGC_m_RemoveAllItemKeyValueTags
    (56, 53),  -- ISteamUGC_m_RemoveItemKeyValueTags
    (57, 54),  -- ISteamUGC_m_AddItemKeyValueTag
    (58, 55),  -- ISteamUGC_m_AddItemPreviewFile
    (59, 56),  -- ISteamUGC_m_AddItemPreviewVideo
    (60, 57),  -- ISteamUGC_m_UpdateItemPreviewFile
    (61, 58),  -- ISteamUGC_m_UpdateItemPreviewVideo
    (62, 59),  -- ISteamUGC_m_RemoveItemPreview
    (63, 60),  -- ISteamUGC_m_AddContentDescriptor
    (64, 61),  -- ISteamUGC_m_RemoveContentDescriptor
    (66, 62),  -- ISteamUGC_m_SubmitItemUpdate
    (67, 63),  -- ISteamUGC_m_GetItemUpdateProgress
    (68, 64),  -- ISteamUGC_m_SetUserItemVote
    (69, 65),  -- ISteamUGC_m_GetUserItemVote
    (70, 66),  -- ISteamUGC_m_AddItemToFavorites
    (71, 67),  -- ISteamUGC_m_RemoveItemFromFavorites
    (72, 68),  -- ISteamUGC_m_SubscribeItem
    (73, 69),  -- ISteamUGC_m_UnsubscribeItem
    (74, 70),  -- ISteamUGC_m_GetNumSubscribedItems
    (75, 71),  -- ISteamUGC_m_GetSubscribedItems
    (76, 72),  -- ISteamUGC_m_GetItemState
    (77, 73),  -- ISteamUGC_m_GetItemInstallInfo
    (78, 74),  -- ISteamUGC_m_GetItemDownloadInfo
    (79, 75),  -- ISteamUGC_m_DownloadItem
    (80, 76),  -- ISteamUGC_m_BInitWorkshopForGameServer
    (81, 77),  -- ISteamUGC_m_SuspendDownloads
    (82, 78),  -- ISteamUGC_m_StartPlaytimeTracking
    (83, 79),  -- ISteamUGC_m_StopPlaytimeTracking
    (84, 80),  -- ISteamUGC_m_StopPlaytimeTrackingForAllItems
    (85, 81),  -- ISteamUGC_m_AddDependency
    (86, 82),  -- ISteamUGC_m_RemoveDependency
    (87, 83),  -- ISteamUGC_m_AddAppDependency
    (88, 84),  -- ISteamUGC_m_RemoveAppDependency
    (89, 85),  -- ISteamUGC_m_GetAppDependencies
    (90, 86),  -- ISteamUGC_m_DeleteItem
    (91, 87),  -- ISteamUGC_m_ShowWorkshopEULA
    (92, 88),  -- ISteamUGC_m_GetWorkshopEULAStatus
    (93, 89)  -- ISteamUGC_m_GetUserContentDescriptorPreferences
  ]⟩,
  ⟨0x000700600000002C, 89, [
    (0, 0),  -- ISteamUGC_m_CreateQueryUserUGCRequest
    (1, 1),  -- ISteamUGC_m_CreateQueryAllUGCRequestCursor
    (2, 2),  -- ISteamUGC_m_CreateQueryAllUGCRequestPage
    (3, 3),  -- ISteamUGC_m_CreateQueryUGCDetailsRequest
    (4, 4),  -- ISteamUGC_m_SendQueryUGCRequest
    (5, 5),  -- ISteamUGC_m_GetQueryUGCResult
    (6, 6),  -- ISteamUGC_m_GetQueryUGCNumTags
    (7, 7),  -- ISteamUGC_m_GetQueryUGCTag
    (8, 8),  -- ISteamUGC_m_GetQueryUGCTagDisplayName
    (9, 9),  -- ISteamUGC_m_GetQueryUGCPreviewURL
    (10, 10),  -- ISteamUGC_m_GetQueryUGCMetadata
    (11, 11),  -- ISteamUGC_m_GetQueryUGCChildren
    (12, 12),  -- ISteamUGC_m_GetQueryUGCStatistic
    (13, 13),  -- ISteamUGC_m_GetQueryUGCNumAdditionalPreviews
    (14, 14),  -- ISteamUGC_m_GetQueryUGCAdditionalPreview
    (15, 15),  -- ISteamUGC_m_GetQueryUGCNumKeyValueTags
    (16, 16),  -- ISteamUGC_m_GetQueryFirstUGCKeyValueTag
    (17, 17),  -- ISteamUGC_m_GetQueryUGCKeyValueTag
    (20, 18),  -- ISteamUGC_m_GetQueryUGCContentDescriptors
    (21, 19),  -- ISteamUGC_m_ReleaseQueryUGCRequest
    (22, 20),  -- ISteamUGC_m_AddRequiredTag
    (23, 21),  -- ISteamUGC_m_AddRequiredTagGroup
    (24, 22),  -- ISteamUGC_m_AddExcludedTag
    (25, 23),  -- ISteamUGC_m_SetReturnOnlyIDs
    (26, 24),  -- ISteamUGC_m_SetReturnKeyValueTags
    (27, 25),  -- ISteamUGC_m_SetReturnLongDescription
    (28, 26),  -- ISteamUGC_m_SetReturnMetadata
    (29, 27),  -- ISteamUGC_m_SetReturnChildren
    (30, 28),  -- ISteamUGC_m_SetReturnAdditionalPreviews
    (31, 29),  -- ISteamUGC_m_SetReturnTotalOnly
    (32, 30),  -- ISteamUGC_m_SetReturnPlaytimeStats
    (33, 31),  -- ISteamUGC_m_SetLanguage
    (34, 32),  -- ISteamUGC_m_SetAllowCachedResponse
    (36, 33),  -- ISteamUGC_m_SetCloudFileNameFilter
    (37, 34),  -- ISteamUGC_m_SetMatchAnyTag
    (38, 35),  -- ISteamUGC_m_SetSearchText
    (39, 36),  -- ISteamUGC_m_SetRankedByTrendDays
    (40, 37),  -- ISteamUGC_m_SetTimeCreatedDateRange
    (41, 38),  -- ISteamUGC_m_SetTimeUpdatedDateRange
    (42, 39),  -- ISteamUGC_m_AddRequiredKeyValueTag
    (43, 40),  -- ISteamUGC_m_RequestUGCDetails
    (44, 41),  -- ISteamUGC_m_CreateItem
    (45, 42),  -- ISteamUGC_m_StartItemUpdate
    (46, 43),  -- ISteamUGC_m_SetItemTitle
    (47, 44),  -- ISteamUGC_m_SetItemDescription
    (48, 45),  -- ISteamUGC_m_SetItemUpdateLanguage
    (49, 46),  -- ISteamUGC_m_SetItemMetadata
    (50, 47),  -- ISteamUGC_m_SetItemVisibility
    (51, 48),  -- ISteamUGC_m_SetItemTags
    (52, 49),  -- ISteamUGC_m_SetItemContent
    (53, 50),  -- ISteamUGC_m_SetItemPreview
    (54, 51),  -- ISteamUGC_m_SetAllowLegacyUpload
    (55, 52),  -- ISteamUGC_m_RemoveAllItemKeyValueTags
    (56, 53),  -- ISteamUGC_m_RemoveItemKeyValueTags
    (57, 54),  -- ISteamUGC_m_AddItemKeyValueTag
    (58, 55),  -- ISteamUGC_m_AddItemPreviewFile
    (59, 56),  -- ISteamUGC_m_AddItemPreviewVideo
    (60, 57),  -- ISteamUGC_m_UpdateItemPreviewFile
    (61, 58),  -- ISteamUGC_m_UpdateItemPreviewVideo
    (62, 59),  -- ISteamUGC_m_RemoveItemPreview
    (63, 60),  -- ISteamUGC_m_AddContentDescriptor
    (64, 61),  -- ISteamUGC_m_RemoveContentDescriptor
    (66, 62),  -- ISteamUGC_m_SubmitItemUpdate
    (67, 63),  -- ISteamUGC_m_GetItemUpdateProgress
    (68, 64),  -- ISteamUGC_m_SetUserItemVote
    (69, 65),  -- ISteamUGC_m_GetUserItemVote
    (70, 66),  -- ISteamUGC_m_AddItemToFavorites
    (71, 67),  -- ISteamUGC_m_RemoveItemFromFavorites
    (72, 68),  -- ISteamUGC_m_SubscribeItem
    (73, 69),  -- ISteamUGC_m_UnsubscribeItem
    (74, 70),  -- ISteamUGC_m_GetNumSubscribedItems
    (75, 71),  -- ISteamUGC_m_GetSubscribedItems
    (76, 72),  -- ISteamUGC_m_GetItemState
    (77, 73),  -- ISteamUGC_m_GetItemInstallInfo
    (78, 74),  -- ISteamUGC_m_GetItemDownloadInfo
    (79, 75),  -- ISteamUGC_m_DownloadItem
    (80, 76),  -- ISteamUGC_m_BInitWorkshopForGameServer
    (81, 77),  -- ISteamUGC_m_SuspendDownloads
    (82, 78),  -- ISteamUGC_m_StartPlaytimeTracking
    (83, 79),  -- ISteamUGC_m_StopPlaytimeTracking
    (84, 80),  -- ISteamUGC_m_StopPlaytimeTrackingForAllItems
    (85, 81),  -- ISteamUGC_m_AddDependency
    (86, 82),  -- ISteamUGC_m_RemoveDependency
    (87, 83),  -- ISteamUGC_m_AddAppDependency
    (88, 84),  -- ISteamUGC_m_RemoveAppDependency
    (89, 85),  -- ISteamUGC_m_GetAppDependencies
    (90, 86),  -- ISteamUGC_m_DeleteItem
    (91, 87),  -- ISteamUGC_m_ShowWorkshopEULA
    (92, 88)  -- ISteamUGC_m_GetWorkshopEULAStatus
  ]⟩,
  ⟨0x0006005B00150039, 86, [
    (0, 0),  -- ISteamUGC_m_CreateQueryUserUGCRequest
    (1, 1),  -- ISteamUGC_m_CreateQueryAllUGCRequestCursor
    (2, 2),  -- ISteamUGC_m_CreateQueryAllUGCRequestPage
    (3, 3),  -- ISteamUGC_m_CreateQueryUGCDetailsRequest
    (4, 4),  -- ISteamUGC_m_SendQueryUGCRequest
    (5, 5),  -- ISteamUGC_m_GetQueryUGCResult
    (6, 6),  -- ISteamUGC_m_GetQueryUGCNumTags
    (7, 7),  -- ISteamUGC_m_GetQueryUGCTag
    (8, 8),  -- ISteamUGC_m_GetQueryUGCTagDisplayName
    (9, 9),  -- ISteamUGC_m_GetQueryUGCPreviewURL
    (10, 10),  -- ISteamUGC_m_GetQueryUGCMetadata
    (11, 11),  -- ISteamUGC_m_GetQueryUGCChildren
    (12, 12),  -- ISteamUGC_m_GetQueryUGCStatistic
    (13, 13),  -- ISteamUGC_m_GetQueryUGCNumAdditionalPreviews
    (14, 14),  -- ISteamUGC_m_GetQueryUGCAdditionalPreview
    (15, 15),  -- ISteamUGC_m_GetQueryUGCNumKeyValueTags
    (16, 16),  -- ISteamUGC_m_GetQueryFirstUGCKeyValueTag
    (17, 17),  -- ISteamUGC_m_GetQueryUGCKeyValueTag
    (21, 18),  -- ISteamUGC_m_ReleaseQueryUGCRequest
    (22, 19),  -- ISteamUGC_m_AddRequiredTag
    (23, 20),  -- ISteamUGC_m_AddRequiredTagGroup
    (24, 21),  -- ISteamUGC_m_AddExcludedTag
    (25, 22),  -- ISteamUGC_m_SetReturnOnlyIDs
    (26, 23),  -- ISteamUGC_m_SetReturnKeyValueTags
    (27, 24),  -- ISteamUGC_m_SetReturnLongDescription
    (28, 25),  -- ISteamUGC_m_SetReturnMetadata
    (29, 26),  -- ISteamUGC_m_SetReturnChildren
    (30, 27),  -- ISteamUGC_m_SetReturnAdditionalPreviews
    (31, 28),  -- ISteamUGC_m_SetReturnTotalOnly
    (32, 29),  -- ISteamUGC_m_SetReturnPlaytimeStats
    (33, 30),  -- ISteamUGC_m_SetLanguage
    (34, 31),  -- ISteamUGC_m_SetAllowCachedResponse
    (36, 32),  -- ISteamUGC_m_SetCloudFileNameFilter
    (37, 33),  -- ISteamUGC_m_SetMatchAnyTag
    (38, 34),  -- ISteamUGC_m_SetSearchText
    (39, 35),  -- ISteamUGC_m_SetRankedByTrendDays
    (40, 36),  -- ISteamUGC_m_SetTimeCreatedDateRange
    (41, 37),  -- ISteamUGC_m_SetTimeUpdatedDateRange
    (42, 38),  -- ISteamUGC_m_AddRequiredKeyValueTag
    (43, 39),  -- ISteamUGC_m_RequestUGCDetails
    (44, 40),  -- ISteamUGC_m_CreateItem
    (45, 41),  -- ISteamUGC_m_StartItemUpdate
    (46, 42),  -- ISteamUGC_m_SetItemTitle
    (47, 43),  -- ISteamUGC_m_SetItemDescription
    (48, 44),  -- ISteamUGC_m_SetItemUpdateLanguage
    (49, 45),  -- ISteamUGC_m_SetItemMetadata
    (50, 46),  -- ISteamUGC_m_SetItemVisibility
    (51, 47),  -- ISteamUGC_m_SetItemTags
    (52, 48),  -- ISteamUGC_m_SetItemContent
    (53, 49),  -- ISteamUGC_m_SetItemPreview
    (54, 50),  -- ISteamUGC_m_SetAllowLegacyUpload
    (55, 51),  -- ISteamUGC_m_RemoveAllItemKeyValueTags
    (56, 52),  -- ISteamUGC_m_RemoveItemKeyValueTags
    (57, 53),  -- ISteamUGC_m_AddItemKeyValueTag
    (58, 54),  -- ISteamUGC_m_AddItemPreviewFile
    (59, 55),  -- ISteamUGC_m_AddItemPreviewVideo
    (60, 56),  -- ISteamUGC_m_UpdateItemPreviewFile
    (61, 57),  -- ISteamUGC_m_UpdateItemPreviewVideo
    (62, 58),  -- ISteamUGC_m_RemoveItemPreview
    (66, 59),  -- ISteamUGC_m_SubmitItemUpdate
    (67, 60),  -- ISteamUGC_m_GetItemUpdateProgress
    (68, 61),  -- ISteamUGC_m_SetUserItemVote
    (69, 62),  -- ISteamUGC_m_GetUserItemVote
    (70, 63),  -- ISteamUGC_m_AddItemToFavorites
    (71, 64),  -- ISteamUGC_m_RemoveItemFromFavorites
    (72, 65),  -- ISteamUGC_m_SubscribeItem
    (73, 66),  -- ISteamUGC_m_UnsubscribeItem
    (74, 67),  -- ISteamUGC_m_GetNumSubscribedItems
    (75, 68),  -- ISteamUGC_m_GetSubscribedItems
    (76, 69),  -- ISteamUGC_m_GetItemState
    (77, 70),  -- ISteamUGC_m_GetItemInstallInfo
    (78, 71),  -- ISteamUGC_m_GetItemDownloadInfo
    (79, 72),  -- ISteamUGC_m_DownloadItem
    (80, 73),  -- ISteamUGC_m_BInitWorkshopForGameServer
    (81, 74),  -- ISteamUGC_m_SuspendDownloads
    (82, 75),  -- ISteamUGC_m_StartPlaytimeTracking
    (83, 76),  -- ISteamUGC_m_StopPlaytimeTracking
    (84, 77),  -- ISteamUGC_m_StopPlaytimeTrackingForAllItems
    (85, 78),  -- ISteamUGC_m_AddDependency
    (86, 79),  -- ISteamUGC_m_RemoveDependency
    (87, 80),  -- ISteamUGC_m_AddAppDependency
    (88, 81),  -- ISteamUGC_m_RemoveAppDependency
    (89, 82),  -- ISteamUGC_m_GetAppDependencies
    (90, 83),  -- ISteamUGC_m_DeleteItem
    (91, 84),  -- ISteamUGC_m_ShowWorkshopEULA
    (92, 85)  -- ISteamUGC_m_GetWorkshopEULAStatus
  ]⟩,
  ⟨0x0006001C00120056, 84, [
    (0, 0),  -- ISteamUGC_m_CreateQueryUserUGCRequest
    (1, 1),  -- ISteamUGC_m_CreateQueryAllUGCRequestCursor
    (2, 2),  -- ISteamUGC_m_CreateQueryAllUGCRequestPage
    (3, 3),  -- ISteamUGC_m_CreateQueryUGCDetailsRequest
    (4, 4),  -- ISteamUGC_m_SendQueryUGCRequest
    (5, 5),  -- ISteamUGC_m_GetQueryUGCResult
    (6, 6),  -- ISteamUGC_m_GetQueryUGCNumTags
    (7, 7),  -- ISteamUGC_m_GetQueryUGCTag
    (8, 8),  -- ISteamUGC_m_GetQueryUGCTagDisplayName
    (9, 9),  -- ISteamUGC_m_GetQueryUGCPreviewURL
    (10, 10),  -- ISteamUGC_m_GetQueryUGCMetadata
    (11, 11),  -- ISteamUGC_m_GetQueryUGCChildren
    (12, 12),  -- ISteamUGC_m_GetQueryUGCStatistic
    (13, 13),  -- ISteamUGC_m_GetQueryUGCNumAdditionalPreviews
    (14, 14),  -- ISteamUGC_m_GetQueryUGCAdditionalPreview
    (15, 15),  -- ISteamUGC_m_GetQueryUGCNumKeyValueTags
    (16, 16),  -- ISteamUGC_m_GetQueryFirstUGCKeyValueTag
    (17, 17),  -- ISteamUGC_m_GetQueryUGCKeyValueTag
    (21, 18),  -- ISteamUGC_m_ReleaseQueryUGCRequest
    (22, 19),  -- ISteamUGC_m_AddRequiredTag
    (23, 20),  -- ISteamUGC_m_AddRequiredTagGroup
    (24, 21),  -- ISteamUGC_m_AddExcludedTag
    (25, 22),  -- ISteamUGC_m_SetReturnOnlyIDs
    (26, 23),  -- ISteamUGC_m_SetReturnKeyValueTags
    (27, 24),  -- ISteamUGC_m_SetReturnLongDescription
    (28, 25),  -- ISteamUGC_m_SetReturnMetadata
    (29, 26),  -- ISteamUGC_m_SetReturnChildren
    (30, 27),  -- ISteamUGC_m_SetReturnAdditionalPreviews
    (31, 28),  -- ISteamUGC_m_SetReturnTotalOnly
    (32, 29),  -- ISteamUGC_m_SetReturnPlaytimeStats
    (33, 30),  -- ISteamUGC_m_SetLanguage
    (34, 31),  -- ISteamUGC_m_SetAllowCachedResponse
    (36, 32),  -- ISteamUGC_m_SetCloudFileNameFilter
    (37, 33),  -- ISteamUGC_m_SetMatchAnyTag
    (38, 34),  -- ISteamUGC_m_SetSearchText
    (39, 35),  -- ISteamUGC_m_SetRankedByTrendDays
    (42, 36),  -- ISteamUGC_m_AddRequiredKeyValueTag
    (43, 37),  -- ISteamUGC_m_RequestUGCDetails
    (44, 38),  -- ISteamUGC_m_CreateItem
    (45, 39),  -- ISteamUGC_m_StartItemUpdate
    (46, 40),  -- ISteamUGC_m_SetItemTitle
    (47, 41),  -- ISteamUGC_m_SetItemDescription
    (48, 42),  -- ISteamUGC_m_SetItemUpdateLanguage
    (49, 43),  -- ISteamUGC_m_SetItemMetadata
    (50, 44),  -- ISteamUGC_m_SetItemVisibility
    (51, 45),  -- ISteamUGC_m_SetItemTags
    (52, 46),  -- ISteamUGC_m_SetItemContent
    (53, 47),  -- ISteamUGC_m_SetItemPreview
    (54, 48),  -- ISteamUGC_m_SetAllowLegacyUpload
    (55, 49),  -- ISteamUGC_m_RemoveAllItemKeyValueTags
    (56, 50),  -- ISteamUGC_m_RemoveItemKeyValueTags
    (57, 51),  -- ISteamUGC_m_AddItemKeyValueTag
    (58, 52),  -- ISteamUGC_m_AddItemPreviewFile
    (59, 53),  -- ISteamUGC_m_AddItemPreviewVideo
    (60, 54),  -- ISteamUGC_m_UpdateItemPreviewFile
    (61, 55),  -- ISteamUGC_m_UpdateItemPreviewVideo
    (62, 56),  -- ISteamUGC_m_RemoveItemPreview
    (66, 57),  -- ISteamUGC_m_SubmitItemUpdate
    (67, 58),  -- ISteamUGC_m_GetItemUpdateProgress
    (68, 59),  -- ISteamUGC_m_SetUserItemVote
    (69, 60),  -- ISteamUGC_m_GetUserItemVote
    (70, 61),  -- ISteamUGC_m_AddItemToFavorites
    (71, 62),  -- ISteamUGC_m_RemoveItemFromFavorites
    (72, 63),  -- ISteamUGC_m_SubscribeItem
    (73, 64),  -- ISteamUGC_m_UnsubscribeItem
    (74, 65),  -- ISteamUGC_m_GetNumSubscribedItems
    (75, 66),  -- ISteamUGC_m_GetSubscribedItems
    (76, 67),  -- ISteamUGC_m_GetItemState
    (77, 68),  -- ISteamUGC_m_GetItemInstallInfo
    (78, 69),  -- ISteamUGC_m_GetItemDownloadInfo
    (79, 70),  -- ISteamUGC_m_DownloadItem
    (80, 71),  -- ISteamUGC_m_BInitWorkshopForGameServer
    (81, 72),  -- ISteamUGC_m_SuspendDownloads
    (82, 73),  -- ISteamUGC_m_StartPlaytimeTracking
    (83, 74),  -- ISteamUGC_m_StopPlaytimeTracking
    (84, 75),  -- ISteamUGC_m_StopPlaytimeTrackingForAllItems
    (85, 76),  -- ISteamUGC_m_AddDependency
    (86, 77),  -- ISteamUGC_m_RemoveDependency
    (87, 78),  -- ISteamUGC_m_AddAppDependency
    (88, 79),  -- ISteamUGC_m_RemoveAppDependency
    (89, 80),  -- ISteamUGC_m_GetAppDependencies
    (90, 81),  -- ISteamUGC_m_DeleteItem
    (91, 82),  -- ISteamUGC_m_ShowWorkshopEULA
    (92, 83)  -- ISteamUGC_m_GetWorkshopEULAStatus
  ]⟩,
  ⟨0x000500350021004E, 79, [
    (0, 0),  -- ISteamUGC_m_CreateQueryUserUGCRequest
    (1, 1),  -- ISteamUGC_m_CreateQueryAllUGCRequestCursor
    (2, 2),  -- ISteamUGC_m_CreateQueryAllUGCRequestPage
    (3, 3),  -- ISteamUGC_m_CreateQueryUGCDetailsRequest
    (4, 4),  -- ISteamUGC_m_SendQueryUGCRequest
    (5, 5),  -- ISteamUGC_m_GetQueryUGCResult
    (9, 6),  -- ISteamUGC_m_GetQueryUGCPreviewURL
    (10, 7),  -- ISteamUGC_m_GetQueryUGCMetadata
    (11, 8),  -- ISteamUGC_m_GetQueryUGCChildren
    (12, 9),  -- ISteamUGC_m_GetQueryUGCStatistic
    (13, 10),  -- ISteamUGC_m_GetQueryUGCNumAdditionalPreviews
    (14, 11),  -- ISteamUGC_m_GetQueryUGCAdditionalPreview
    (15, 12),  -- ISteamUGC_m_GetQueryUGCNumKeyValueTags
    (16, 13),  -- ISteamUGC_m_GetQueryFirstUGCKeyValueTag
    (17, 14),  -- ISteamUGC_m_GetQueryUGCKeyValueTag
    (21, 15),  -- ISteamUGC_m_ReleaseQueryUGCRequest
    (22, 16),  -- ISteamUGC_m_AddRequiredTag
    (23, 17),  -- ISteamUGC_m_AddRequiredTagGroup
    (24, 18),  -- ISteamUGC_m_AddExcludedTag
    (25, 19),  -- ISteamUGC_m_SetReturnOnlyIDs
    (26, 20),  -- ISteamUGC_m_SetReturnKeyValueTags
    (27, 21),  -- ISteamUGC_m_SetReturnLongDescription
    (28, 22),  -- ISteamUGC_m_SetReturnMetadata
    (29, 23),  -- ISteamUGC_m_SetReturnChildren
    (30, 24),  -- ISteamUGC_m_SetReturnAdditionalPreviews
    (31, 25),  -- ISteamUGC_m_SetReturnTotalOnly
    (32, 26),  -- ISteamUGC_m_SetReturnPlaytimeStats
    (33, 27),  -- ISteamUGC_m_SetLanguage
    (34, 28),  -- ISteamUGC_m_SetAllowCachedResponse
    (36, 29),  -- ISteamUGC_m_SetCloudFileNameFilter
    (37, 30),  -- ISteamUGC_m_SetMatchAnyTag
    (38, 31),  -- ISteamUGC_m_SetSearchText
    (39, 32),  -- ISteamUGC_m_SetRankedByTrendDays
    (42, 33),  -- ISteamUGC_m_AddRequiredKeyValueTag
    (43, 34),  -- ISteamUGC_m_RequestUGCDetails
    (44, 35),  -- ISteamUGC_m_CreateItem
    (45, 36),  -- ISteamUGC_m_StartItemUpdate
    (46, 37),  -- ISteamUGC_m_SetItemTitle
    (47, 38),  -- ISteamUGC_m_SetItemDescription
    (48, 39),  -- ISteamUGC_m_SetItemUpdateLanguage
    (49, 40),  -- ISteamUGC_m_SetItemMetadata
    (50, 41),  -- ISteamUGC_m_SetItemVisibility
    (51, 42),  -- ISteamUGC_m_SetItemTags
    (52, 43),  -- ISteamUGC_m_SetItemContent
    (53, 44),  -- ISteamUGC_m_SetItemPreview
    (54, 45),  -- ISteamUGC_m_SetAllowLegacyUpload
    (55, 46),  -- ISteamUGC_m_RemoveAllItemKeyValueTags
    (56, 47),  -- ISteamUGC_m_RemoveItemKeyValueTags
    (57, 48),  -- ISteamUGC_m_AddItemKeyValueTag
    (58, 49),  -- ISteamUGC_m_AddItemPreviewFile
    (59, 50),  -- ISteamUGC_m_AddItemPreviewVideo
    (60, 51),  -- ISteamUGC_m_UpdateItemPreviewFile
    (61, 52),  -- ISteamUGC_m_UpdateItemPreviewVideo
    (62, 53),  -- ISteamUGC_m_RemoveItemPreview
    (66, 54),  -- ISteamUGC_m_SubmitItemUpdate
    (67, 55),  -- ISteamUGC_m_GetItemUpdateProgress
    (68, 56),  -- ISteamUGC_m_SetUserItemVote
    (69, 57),  -- ISteamUGC_m_GetUserItemVote
    (70, 58),  -- ISteamUGC_m_AddItemToFavorites
    (71, 59),  -- ISteamUGC_m_RemoveItemFromFavorites
    (72, 60),  -- ISteamUGC_m_SubscribeItem
    (73, 61),  -- ISteamUGC_m_UnsubscribeItem
    (74, 62),  -- ISteamUGC_m_GetNumSubscribedItems
    (75, 63),  -- ISteamUGC_m_GetSubscribedItems
    (76, 64),  -- ISteamUGC_m_GetItemState
    (77, 65),  -- ISteamUGC_m_GetItemInstallInfo
    (78, 66),  -- ISteamUGC_m_GetItemDownloadInfo
    (79, 67),  -- ISteamUGC_m_DownloadItem
    (80, 68),  -- ISteamUGC_m_BInitWorkshopForGameServer
    (81, 69),  -- ISteamUGC_m_SuspendDownloads
    (82, 70),  -- ISteamUGC_m_StartPlaytimeTracking
    (83, 71),  -- ISteamUGC_m_StopPlaytimeTracking
    (84, 72),  -- ISteamUGC_m_StopPlaytimeTrackingForAllItems
    (85, 73),  -- ISteamUGC_m_AddDependency
    (86, 74),  -- ISteamUGC_m_RemoveDependency
    (87, 75),  -- ISteamUGC_m_AddAppDependency
    (88, 76),  -- ISteamUGC_m_RemoveAppDependency
    (89, 77),  -- ISteamUGC_m_GetAppDependencies
    (90, 78)  -- ISteamUGC_m_DeleteItem
  ]⟩,
  ⟨0x000500130026003E, 78, [
    (0, 0),  -- ISteamUGC_m_CreateQueryUserUGCRequest
    (1, 1),  -- ISteamUGC_m_CreateQueryAllUGCRequestCursor
    (2, 2),  -- ISteamUGC_m_CreateQueryAllUGCRequestPage
    (3, 3),  -- ISteamUGC_m_CreateQueryUGCDetailsRequest
    (4, 4),  -- ISteamUGC_m_SendQueryUGCRequest
    (5, 5),  -- ISteamUGC_m_GetQueryUGCResult
    (9, 6),  -- ISteamUGC_m_GetQueryUGCPreviewURL
    (10, 7),  -- ISteamUGC_m_GetQueryUGCMetadata
    (11, 8),  -- ISteamUGC_m_GetQueryUGCChildren
    (12, 9),  -- ISteamUGC_m_GetQueryUGCStatistic
    (13, 10),  -- ISteamUGC_m_GetQueryUGCNumAdditionalPreviews
    (14, 11),  -- ISteamUGC_m_GetQueryUGCAdditionalPreview
    (15, 12),  -- ISteamUGC_m_GetQueryUGCNumKeyValueTags
    (16, 13),  -- ISteamUGC_m_GetQueryFirstUGCKeyValueTag
    (17, 14),  -- ISteamUGC_m_GetQueryUGCKeyValueTag
    (21, 15),  -- ISteamUGC_m_ReleaseQueryUGCRequest
    (22, 16),  -- ISteamUGC_m_AddRequiredTag
    (24, 17),  -- ISteamUGC_m_AddExcludedTag
    (25, 18),  -- ISteamUGC_m_SetReturnOnlyIDs
    (26, 19),  -- ISteamUGC_m_SetReturnKeyValueTags
    (27, 20),  -- ISteamUGC_m_SetReturnLongDescription
    (28, 21),  -- ISteamUGC_m_SetReturnMetadata
    (29, 22),  -- ISteamUGC_m_SetReturnChildren
    (30, 23),  -- ISteamUGC_m_SetReturnAdditionalPreviews
    (31, 24),  -- ISteamUGC_m_SetReturnTotalOnly
    (32, 25),  -- ISteamUGC_m_SetReturnPlaytimeStats
    (33, 26),  -- ISteamUGC_m_SetLanguage
    (34, 27),  -- ISteamUGC_m_SetAllowCachedResponse
    (36, 28),  -- ISteamUGC_m_SetCloudFileNameFilter
    (37, 29),  -- ISteamUGC_m_SetMatchAnyTag
    (38, 30),  -- ISteamUGC_m_SetSearchText
    (39, 31),  -- ISteamUGC_m_SetRankedByTrendDays
    (42, 32),  -- ISteamUGC_m_AddRequiredKeyValueTag
    (43, 33),  -- ISteamUGC_m_RequestUGCDetails
    (44, 34),  -- ISteamUGC_m_CreateItem
    (45, 35),  -- ISteamUGC_m_StartItemUpdate
    (46, 36),  -- ISteamUGC_m_SetItemTitle
    (47, 37),  -- ISteamUGC_m_SetItemDescription
    (48, 38),  -- ISteamUGC_m_SetItemUpdateLanguage
    (49, 39),  -- ISteamUGC_m_SetItemMetadata
    (50, 40),  -- ISteamUGC_m_SetItemVisibility
    (51, 41),  -- ISteamUGC_m_SetItemTags
    (52, 42),  -- ISteamUGC_m_SetItemContent
    (53, 43),  -- ISteamUGC_m_SetItemPreview
    (54, 44),  -- ISteamUGC_m_SetAllowLegacyUpload
    (55, 45),  -- ISteamUGC_m_RemoveAllItemKeyValueTags
    (56, 46),  -- ISteamUGC_m_RemoveItemKeyValueTags
    (57, 47),  -- ISteamUGC_m_AddItemKeyValueTag
    (58, 48),  -- ISteamUGC_m_AddItemPreviewFile
    (59, 49),  -- ISteamUGC_m_AddItemPreviewVideo
    (60, 50),  -- ISteamUGC_m_UpdateItemPreviewFile
    (61, 51),  -- ISteamUGC_m_UpdateItemPreviewVideo
    (62, 52),  -- ISteamUGC_m_RemoveItemPreview
    (66, 53),  -- ISteamUGC_m_SubmitItemUpdate
    (67, 54),  -- ISteamUGC_m_GetItemUpdateProgress
    (68, 55),  -- ISteamUGC_m_SetUserItemVote
    (69, 56),  -- ISteamUGC_m_GetUserItemVote
    (70, 57),  -- ISteamUGC_m_AddItemToFavorites
    (71, 58),  -- ISteamUGC_m_RemoveItemFromFavorites
    (72, 59),  -- ISteamUGC_m_SubscribeItem
    (73, 60),  -- ISteamUGC_m_UnsubscribeItem
    (74, 61),  -- ISteamUGC_m_GetNumSubscribedItems
    (75, 62),  -- ISteamUGC_m_GetSubscribedItems
    (76, 63),  -- ISteamUGC_m_GetItemState
    (77, 64),  -- ISteamUGC_m_GetItemInstallInfo
    (78, 65),  -- ISteamUGC_m_GetItemDownloadInfo
    (79, 66),  -- ISteamUGC_m_DownloadItem
    (80, 67),  -- ISteamUGC_m_BInitWorkshopForGameServer
    (81, 68),  -- ISteamUGC_m_SuspendDownloads
    (82, 69),  -- ISteamUGC_m_StartPlaytimeTracking
    (83, 70),  -- ISteamUGC_m_StopPlaytimeTracking
    (84, 71),  -- ISteamUGC_m_StopPlaytimeTrackingForAllItems
    (85, 72),  -- ISteamUGC_m_AddDependency
    (86, 73),  -- ISteamUGC_m_RemoveDependency
    (87, 74),  -- ISteamUGC_m_AddAppDependency
    (88, 75),  -- ISteamUGC_m_RemoveAppDependency
    (89, 76),  -- ISteamUGC_m_GetAppDependencies
    (90, 77)  -- ISteamUGC_m_DeleteItem
  ]⟩,
  ⟨0x0004005F0014001E, 76, [
    (0, 0),  -- ISteamUGC_m_CreateQueryUserUGCRequest
    (1, 1),  -- ISteamUGC_m_CreateQueryAllUGCRequestCursor
    (2, 2),  -- ISteamUGC_m_CreateQueryAllUGCRequestPage
    (3, 3),  -- ISteamUGC_m_CreateQueryUGCDetailsRequest
    (4, 4),  -- ISteamUGC_m_SendQueryUGCRequest
    (5, 5),  -- ISteamUGC_m_GetQueryUGCResult
    (9, 6),  -- ISteamUGC_m_GetQueryUGCPreviewURL
    (10, 7),  -- ISteamUGC_m_GetQueryUGCMetadata
    (11, 8),  -- ISteamUGC_m_GetQueryUGCChildren
    (12, 9),  -- ISteamUGC_m_GetQueryUGCStatistic
    (13, 10),  -- ISteamUGC_m_GetQueryUGCNumAdditionalPreviews
    (14, 11),  -- ISteamUGC_m_GetQueryUGCAdditionalPreview
    (15, 12),  -- ISteamUGC_m_GetQueryUGCNumKeyValueTags
    (17, 13),  -- ISteamUGC_m_GetQueryUGCKeyValueTag
    (21, 14),  -- ISteamUGC_m_ReleaseQueryUGCRequest
    (22, 15),  -- ISteamUGC_m_AddRequiredTag
    (24, 16),  -- ISteamUGC_m_AddExcludedTag
    (25, 17),  -- ISteamUGC_m_SetReturnOnlyIDs
    (26, 18),  -- ISteamUGC_m_SetReturnKeyValueTags
    (27, 19),  -- ISteamUGC_m_SetReturnLongDescription
    (28, 20),  -- ISteamUGC_m_SetReturnMetadata
    (29, 21),  -- ISteamUGC_m_SetReturnChildren
    (30, 22),  -- ISteamUGC_m_SetReturnAdditionalPreviews
    (31, 23),  -- ISteamUGC_m_SetReturnTotalOnly
    (32, 24),  -- ISteamUGC_m_SetReturnPlaytimeStats
    (33, 25),  -- ISteamUGC_m_SetLanguage
    (34, 26),  -- ISteamUGC_m_SetAllowCachedResponse
    (36, 27),  -- ISteamUGC_m_SetCloudFileNameFilter
    (37, 28),  -- ISteamUGC_m_SetMatchAnyTag
    (38, 29),  -- ISteamUGC_m_SetSearchText
    (39, 30),  -- ISteamUGC_m_SetRankedByTrendDays
    (42, 31),  -- ISteamUGC_m_AddRequiredKeyValueTag
    (43, 32),  -- ISteamUGC_m_RequestUGCDetails
    (44, 33),  -- ISteamUGC_m_CreateItem
    (45, 34),  -- ISteamUGC_m_StartItemUpdate
    (46, 35),  -- ISteamUGC_m_SetItemTitle
    (47, 36),  -- ISteamUGC_m_SetItemDescription
    (48, 37),  -- ISteamUGC_m_SetItemUpdateLanguage
    (49, 38),  -- ISteamUGC_m_SetItemMetadata
    (50, 39),  -- ISteamUGC_m_SetItemVisibility
    (51, 40),  -- ISteamUGC_m_SetItemTags
    (52, 41),  -- ISteamUGC_m_SetItemContent
    (53, 42),  -- ISteamUGC_m_SetItemPreview
    (54, 43),  -- ISteamUGC_m_SetAllowLegacyUpload
    (56, 44),  -- ISteamUGC_m_RemoveItemKeyValueTags
    (57, 45),  -- ISteamUGC_m_AddItemKeyValueTag
    (58, 46),  -- ISteamUGC_m_AddItemPreviewFile
    (59, 47),  -- ISteamUGC_m_AddItemPreviewVideo
    (60, 48),  -- ISteamUGC_m_UpdateItemPreviewFile
    (61, 49),  -- ISteamUGC_m_UpdateItemPreviewVideo
    (62, 50),  -- ISteamUGC_m_RemoveItemPreview
    (66, 51),  -- ISteamUGC_m_SubmitItemUpdate
    (67, 52),  -- ISteamUGC_m_GetItemUpdateProgress
    (68, 53),  -- ISteamUGC_m_SetUserItemVote
    (69, 54),  -- ISteamUGC_m_GetUserItemVote
    (70, 55),  -- ISteamUGC_m_AddItemToFavorites
    (71, 56),  -- ISteamUGC_m_RemoveItemFromFavorites
    (72, 57),  -- ISteamUGC_m_SubscribeItem
    (73, 58),  -- ISteamUGC_m_UnsubscribeItem
    (74, 59),  -- ISteamUGC_m_GetNumSubscribedItems
    (75, 60),  -- ISteamUGC_m_GetSubscribedItems
    (76, 61),  -- ISteamUGC_m_GetItemState
    (77, 62),  -- ISteamUGC_m_GetItemInstallInfo
    (78, 63),  -- ISteamUGC_m_GetItemDownloadInfo
    (79, 64),  -- ISteamUGC_m_DownloadItem
    (80, 65),  -- ISteamUGC_m_BInitWorkshopForGameServer
    (81, 66),  -- ISteamUGC_m_SuspendDownloads
    (82, 67),  -- ISteamUGC_m_StartPlaytimeTracking
    (83, 68),  -- ISteamUGC_m_StopPlaytimeTracking
    (84, 69),  -- ISteamUGC_m_StopPlaytimeTrackingForAllItems
    (85, 70),  -- ISteamUGC_m_AddDependency
    (86, 71),  -- ISteamUGC_m_RemoveDependency
    (87, 72),  -- ISteamUGC_m_AddAppDependency
    (88, 73),  -- ISteamUGC_m_RemoveAppDependency
    (89, 74),  -- ISteamUGC_m_GetAppDependencies
    (90, 75)  -- ISteamUGC_m_DeleteItem
  ]⟩,
  ⟨0x0003005C0048003A, 74, [
    (0, 0),  -- ISteamUGC_m_CreateQueryUserUGCRequest
    (2, 1),  -- ISteamUGC_m_CreateQueryAllUGCRequestPage
    (3, 2),  -- ISteamUGC_m_CreateQueryUGCDetailsRequest
    (4, 3),  -- ISteamUGC_m_SendQueryUGCRequest
    (5, 4),  -- ISteamUGC_m_GetQueryUGCResult
    (9, 5),  -- ISteamUGC_m_GetQueryUGCPreviewURL
    (10, 6),  -- ISteamUGC_m_GetQueryUGCMetadata
    (11, 7),  -- ISteamUGC_m_GetQueryUGCChildren
    (12, 8),  -- ISteamUGC_m_GetQueryUGCStatistic
    (13, 9),  -- ISteamUGC_m_GetQueryUGCNumAdditionalPreviews
    (14, 10),  -- ISteamUGC_m_GetQueryUGCAdditionalPreview
    (15, 11),  -- ISteamUGC_m_GetQueryUGCNumKeyValueTags
    (17, 12),  -- ISteamUGC_m_GetQueryUGCKeyValueTag
    (21, 13),  -- ISteamUGC_m_ReleaseQueryUGCRequest
    (22, 14),  -- ISteamUGC_m_AddRequiredTag
    (24, 15),  -- ISteamUGC_m_AddExcludedTag
    (25, 16),  -- ISteamUGC_m_SetReturnOnlyIDs
    (26, 17),  -- ISteamUGC_m_SetReturnKeyValueTags
    (27, 18),  -- ISteamUGC_m_SetReturnLongDescription
    (28, 19),  -- ISteamUGC_m_SetReturnMetadata
    (29, 20),  -- ISteamUGC_m_SetReturnChildren
    (30, 21),  -- ISteamUGC_m_SetReturnAdditionalPreviews
    (31, 22),  -- ISteamUGC_m_SetReturnTotalOnly
    (32, 23),  -- ISteamUGC_m_SetReturnPlaytimeStats
    (33, 24),  -- ISteamUGC_m_SetLanguage
    (34, 25),  -- ISteamUGC_m_SetAllowCachedResponse
    (36, 26),  -- ISteamUGC_m_SetCloudFileNameFilter
    (37, 27),  -- ISteamUGC_m_SetMatchAnyTag
    (38, 28),  -- ISteamUGC_m_SetSearchText
    (39, 29),  -- ISteamUGC_m_SetRankedByTrendDays
    (42, 30),  -- ISteamUGC_m_AddRequiredKeyValueTag
    (43, 31),  -- ISteamUGC_m_RequestUGCDetails
    (44, 32),  -- ISteamUGC_m_CreateItem
    (45, 33),  -- ISteamUGC_m_StartItemUpdate
    (46, 34),  -- ISteamUGC_m_SetItemTitle
    (47, 35),  -- ISteamUGC_m_SetItemDescription
    (48, 36),  -- ISteamUGC_m_SetItemUpdateLanguage
    (49, 37),  -- ISteamUGC_m_SetItemMetadata
    (50, 38),  -- ISteamUGC_m_SetItemVisibility
    (51, 39),  -- ISteamUGC_m_SetItemTags
    (52, 40),  -- ISteamUGC_m_SetItemContent
    (53, 41),  -- ISteamUGC_m_SetItemPreview
    (56, 42),  -- ISteamUGC_m_RemoveItemKeyValueTags
    (57, 43),  -- ISteamUGC_m_AddItemKeyValueTag
    (58, 44),  -- ISteamUGC_m_AddItemPreviewFile
    (59, 45),  -- ISteamUGC_m_AddItemPreviewVideo
    (60, 46),  -- ISteamUGC_m_UpdateItemPreviewFile
    (61, 47),  -- ISteamUGC_m_UpdateItemPreviewVideo
    (62, 48),  -- ISteamUGC_m_RemoveItemPreview
    (66, 49),  -- ISteamUGC_m_SubmitItemUpdate
    (67, 50),  -- ISteamUGC_m_GetItemUpdateProgress
    (68, 51),  -- ISteamUGC_m_SetUserItemVote
    (69, 52),  -- ISteamUGC_m_GetUserItemVote
    (70, 53),  -- ISteamUGC_m_AddItemToFavorites
    (71, 54),  -- ISteamUGC_m_RemoveItemFromFavorites
    (72, 55),  -- ISteamUGC_m_SubscribeItem
    (73, 56),  -- ISteamUGC_m_UnsubscribeItem
    (74, 57),  -- ISteamUGC_m_GetNumSubscribedItems
    (75, 58),  -- ISteamUGC_m_GetSubscribedItems
    (76, 59),  -- ISteamUGC_m_GetItemState
    (77, 60),  -- ISteamUGC_m_GetItemInstallInfo
    (78, 61),  -- ISteamUGC_m_GetItemDownloadInfo
    (79, 62),  -- ISteamUGC_m_DownloadItem
    (80, 63),  -- ISteamUGC_m_BInitWorkshopForGameServer
    (81, 64),  -- ISteamUGC_m_SuspendDownloads
    (82, 65),  -- ISteamUGC_m_StartPlaytimeTracking
    (83, 66),  -- ISteamUGC_m_StopPlaytimeTracking
    (84, 67),  -- ISteamUGC_m_StopPlaytimeTrackingForAllItems
    (85, 68),  -- ISteamUGC_m_AddDependency
    (86, 69),  -- ISteamUGC_m_RemoveDependency
    (87, 70),  -- ISteamUGC_m_AddAppDependency
    (88, 71),  -- ISteamUGC_m_RemoveAppDependency
    (89, 72),  -- ISteamUGC_m_GetAppDependencies
    (90, 73)  -- ISteamUGC_m_DeleteItem
  ]⟩,
  ⟨0x0003003E00520052, 67, [
    (0, 0),  -- ISteamUGC_m_CreateQueryUserUGCRequest
    (2, 1),  -- ISteamUGC_m_CreateQueryAllUGCRequestPage
    (3, 2),  -- ISteamUGC_m_CreateQueryUGCDetailsRequest
    (4, 3),  -- ISteamUGC_m_SendQueryUGCRequest
    (5, 4),  -- ISteamUGC_m_GetQueryUGCResult
    (9, 5),  -- ISteamUGC_m_GetQueryUGCPreviewURL
    (10, 6),  -- ISteamUGC_m_GetQueryUGCMetadata
    (11, 7),  -- ISteamUGC_m_GetQueryUGCChildren
    (12, 8),  -- ISteamUGC_m_GetQueryUGCStatistic
    (13, 9),  -- ISteamUGC_m_GetQueryUGCNumAdditionalPreviews
    (14, 10),  -- ISteamUGC_m_GetQueryUGCAdditionalPreview
    (15, 11),  -- ISteamUGC_m_GetQueryUGCNumKeyValueTags
    (17, 12),  -- ISteamUGC_m_GetQueryUGCKeyValueTag
    (21, 13),  -- ISteamUGC_m_ReleaseQueryUGCRequest
    (22, 14),  -- ISteamUGC_m_AddRequiredTag
    (24, 15),  -- ISteamUGC_m_AddExcludedTag
    (25, 16),  -- ISteamUGC_m_SetReturnOnlyIDs
    (26, 17),  -- ISteamUGC_m_SetReturnKeyValueTags
    (27, 18),  -- ISteamUGC_m_SetReturnLongDescription
    (28, 19),  -- ISteamUGC_m_SetReturnMetadata
    (29, 20),  -- ISteamUGC_m_SetReturnChildren
    (30, 21),  -- ISteamUGC_m_SetReturnAdditionalPreviews
    (31, 22),  -- ISteamUGC_m_SetReturnTotalOnly
    (33, 23),  -- ISteamUGC_m_SetLanguage
    (34, 24),  -- ISteamUGC_m_SetAllowCachedResponse
    (36, 25),  -- ISteamUGC_m_SetCloudFileNameFilter
    (37, 26),  -- ISteamUGC_m_SetMatchAnyTag
    (38, 27),  -- ISteamUGC_m_SetSearchText
    (39, 28),  -- ISteamUGC_m_SetRankedByTrendDays
    (42, 29),  -- ISteamUGC_m_AddRequiredKeyValueTag
    (43, 30),  -- ISteamUGC_m_RequestUGCDetails
    (44, 31),  -- ISteamUGC_m_CreateItem
    (45, 32),  -- ISteamUGC_m_StartItemUpdate
    (46, 33),  -- ISteamUGC_m_SetItemTitle
    (47, 34),  -- ISteamUGC_m_SetItemDescription
    (48, 35),  -- ISteamUGC_m_SetItemUpdateLanguage
    (49, 36),  -- ISteamUGC_m_SetItemMetadata
    (50, 37),  -- ISteamUGC_m_SetItemVisibility
    (51, 38),  -- ISteamUGC_m_SetItemTags
    (52, 39),  -- ISteamUGC_m_SetItemContent
    (53, 40),  -- ISteamUGC_m_SetItemPreview
    (56, 41),  -- ISteamUGC_m_RemoveItemKeyValueTags
    (57, 42),  -- ISteamUGC_m_AddItemKeyValueTag
    (58, 43),  -- ISteamUGC_m_AddItemPreviewFile
    (59, 44),  -- ISteamUGC_m_AddItemPreviewVideo
    (60, 45),  -- ISteamUGC_m_UpdateItemPreviewFile
    (61, 46),  -- ISteamUGC_m_UpdateItemPreviewVideo
    (62, 47),  -- ISteamUGC_m_RemoveItemPreview
    (66, 48),  -- ISteamUGC_m_SubmitItemUpdate
    (67, 49),  -- ISteamUGC_m_GetItemUpdateProgress
    (68, 50),  -- ISteamUGC_m_SetUserItemVote
    (69, 51),  -- ISteamUGC_m_GetUserItemVote
    (70, 52),  -- ISteamUGC_m_AddItemToFavorites
    (71, 53),  -- ISteamUGC_m_RemoveItemFromFavorites
    (72, 54),  -- ISteamUGC_m_SubscribeItem
    (73, 55),  -- ISteamUGC_m_UnsubscribeItem
    (74, 56),  -- ISteamUGC_m_GetNumSubscribedItems
    (75, 57),  -- ISteamUGC_m_GetSubscribedItems
    (76, 58),  -- ISteamUGC_m_GetItemState
    (77, 59),  -- ISteamUGC_m_GetItemInstallInfo
    (78, 60),  -- ISteamUGC_m_GetItemDownloadInfo
    (79, 61),  -- ISteamUGC_m_DownloadItem
    (80, 62),  -- ISteamUGC_m_BInitWorkshopForGameServer
    (81, 63),  -- ISteamUGC_m_SuspendDownloads
    (82, 64),  -- ISteamUGC_m_StartPlaytimeTracking
    (83, 65),  -- ISteamUGC_m_StopPlaytimeTracking
    (84, 66)  -- ISteamUGC_m_StopPlaytimeTrackingForAllItems
  ]⟩,
  ⟨0x0003002A003D0042, 63, [
    (0, 0),  -- ISteamUGC_m_CreateQueryUserUGCRequest
    (2, 1),  -- ISteamUGC_m_CreateQueryAllUGCRequestPage
    (3, 2),  -- ISteamUGC_m_CreateQueryUGCDetailsRequest
    (4, 3),  -- ISteamUGC_m_SendQueryUGCRequest
    (5, 4),  -- ISteamUGC_m_GetQueryUGCResult
    (9, 5),  -- ISteamUGC_m_GetQueryUGCPreviewURL
    (10, 6),  -- ISteamUGC_m_GetQueryUGCMetadata
    (11, 7),  -- ISteamUGC_m_GetQueryUGCChildren
    (12, 8),  -- ISteamUGC_m_GetQueryUGCStatistic
    (13, 9),  -- ISteamUGC_m_GetQueryUGCNumAdditionalPreviews
    (14, 10),  -- ISteamUGC_m_GetQueryUGCAdditionalPreview
    (15, 11),  -- ISteamUGC_m_GetQueryUGCNumKeyValueTags
    (17, 12),  -- ISteamUGC_m_GetQueryUGCKeyValueTag
    (21, 13),  -- ISteamUGC_m_ReleaseQueryUGCRequest
    (22, 14),  -- ISteamUGC_m_AddRequiredTag
    (24, 15),  -- ISteamUGC_m_AddExcludedTag
    (26, 16),  -- ISteamUGC_m_SetReturnKeyValueTags
    (27, 17),  -- ISteamUGC_m_SetReturnLongDescription
    (28, 18),  -- ISteamUGC_m_SetReturnMetadata
    (29, 19),  -- ISteamUGC_m_SetReturnChildren
    (30, 20),  -- ISteamUGC_m_SetReturnAdditionalPreviews
    (31, 21),  -- ISteamUGC_m_SetReturnTotalOnly
    (33, 22),  -- ISteamUGC_m_SetLanguage
    (34, 23),  -- ISteamUGC_m_SetAllowCachedResponse
    (36, 24),  -- ISteamUGC_m_SetCloudFileNameFilter
    (37, 25),  -- ISteamUGC_m_SetMatchAnyTag
    (38, 26),  -- ISteamUGC_m_SetSearchText
    (39, 27),  -- ISteamUGC_m_SetRankedByTrendDays
    (42, 28),  -- ISteamUGC_m_AddRequiredKeyValueTag
    (43, 29),  -- ISteamUGC_m_RequestUGCDetails
    (44, 30),  -- ISteamUGC_m_CreateItem
    (45, 31),  -- ISteamUGC_m_StartItemUpdate
    (46, 32),  -- ISteamUGC_m_SetItemTitle
    (47, 33),  -- ISteamUGC_m_SetItemDescription
    (48, 34),  -- ISteamUGC_m_SetItemUpdateLanguage
    (49, 35),  -- ISteamUGC_m_SetItemMetadata
    (50, 36),  -- ISteamUGC_m_SetItemVisibility
    (51, 37),  -- ISteamUGC_m_SetItemTags
    (52, 38),  -- ISteamUGC_m_SetItemContent
    (53, 39),  -- ISteamUGC_m_SetItemPreview
    (56, 40),  -- ISteamUGC_m_RemoveItemKeyValueTags
    (57, 41),  -- ISteamUGC_m_AddItemKeyValueTag
    (58, 42),  -- ISteamUGC_m_AddItemPreviewFile
    (59, 43),  -- ISteamUGC_m_AddItemPreviewVideo
    (60, 44),  -- ISteamUGC_m_UpdateItemPreviewFile
    (61, 45),  -- ISteamUGC_m_UpdateItemPreviewVideo
    (62, 46),  -- ISteamUGC_m_RemoveItemPreview
    (66, 47),  -- ISteamUGC_m_SubmitItemUpdate
    (67, 48),  -- ISteamUGC_m_GetItemUpdateProgress
    (68, 49),  -- ISteamUGC_m_SetUserItemVote
    (69, 50),  -- ISteamUGC_m_GetUserItemVote
    (70, 51),  -- ISteamUGC_m_AddItemToFavorites
    (71, 52),  -- ISteamUGC_m_RemoveItemFromFavorites
    (72, 53),  -- ISteamUGC_m_SubscribeItem
    (73, 54),  -- ISteamUGC_m_UnsubscribeItem
    (74, 55),  -- ISteamUGC_m_GetNumSubscribedItems
    (75, 56),  -- ISteamUGC_m_GetSubscribedItems
    (76, 57),  -- ISteamUGC_m_GetItemState
    (77, 58),  -- ISteamUGC_m_GetItemInstallInfo
    (78, 59),  -- ISteamUGC_m_GetItemDownloadInfo
    (79, 60),  -- ISteamUGC_m_DownloadItem
    (80, 61),  -- ISteamUGC_m_BInitWorkshopForGameServer
    (81, 62)  -- ISteamUGC_m_SuspendDownloads
  ]⟩,
  ⟨0x00020059002D0004, 58, [
    (0, 0),  -- ISteamUGC_m_CreateQueryUserUGCRequest
    (2, 1),  -- ISteamUGC_m_CreateQueryAllUGCRequestPage
    (3, 2),  -- ISteamUGC_m_CreateQueryUGCDetailsRequest
    (4, 3),  -- ISteamUGC_m_SendQueryUGCRequest
    (5, 4),  -- ISteamUGC_m_GetQueryUGCResult
    (9, 5),  -- ISteamUGC_m_GetQueryUGCPreviewURL
    (10, 6),  -- ISteamUGC_m_GetQueryUGCMetadata
    (11, 7),  -- ISteamUGC_m_GetQueryUGCChildren
    (12, 8),  -- ISteamUGC_m_GetQueryUGCStatistic
    (13, 9),  -- ISteamUGC_m_GetQueryUGCNumAdditionalPreviews
    (14, 10),  -- ISteamUGC_m_GetQueryUGCAdditionalPreview
    (15, 11),  -- ISteamUGC_m_GetQueryUGCNumKeyValueTags
    (17, 12),  -- ISteamUGC_m_GetQueryUGCKeyValueTag
    (21, 13),  -- ISteamUGC_m_ReleaseQueryUGCRequest
    (22, 14),  -- ISteamUGC_m_AddRequiredTag
    (24, 15),  -- ISteamUGC_m_AddExcludedTag
    (26, 16),  -- ISteamUGC_m_SetReturnKeyValueTags
    (27, 17),  -- ISteamUGC_m_SetReturnLongDescription
    (28, 18),  -- ISteamUGC_m_SetReturnMetadata
    (29, 19),  -- ISteamUGC_m_SetReturnChildren
    (30, 20),  -- ISteamUGC_m_SetReturnAdditionalPreviews
    (31, 21),  -- ISteamUGC_m_SetReturnTotalOnly
    (33, 22),  -- ISteamUGC_m_SetLanguage
    (34, 23),  -- ISteamUGC_m_SetAllowCachedResponse
    (36, 24),  -- ISteamUGC_m_SetCloudFileNameFilter
    (37, 25),  -- ISteamUGC_m_SetMatchAnyTag
    (38, 26),  -- ISteamUGC_m_SetSearchText
    (39, 27),  -- ISteamUGC_m_SetRankedByTrendDays
    (42, 28),  -- ISteamUGC_m_AddRequiredKeyValueTag
    (43, 29),  -- ISteamUGC_m_RequestUGCDetails
    (44, 30),  -- ISteamUGC_m_CreateItem
    (45, 31),  -- ISteamUGC_m_StartItemUpdate
    (46, 32),  -- ISteamUGC_m_SetItemTitle
    (47, 33),  -- ISteamUGC_m_SetItemDescription
    (48, 34),  -- ISteamUGC_m_SetItemUpdateLanguage
    (49, 35),  -- ISteamUGC_m_SetItemMetadata
    (50, 36),  -- ISteamUGC_m_SetItemVisibility
    (51, 37),  -- ISteamUGC_m_SetItemTags
    (52, 38),  -- ISteamUGC_m_SetItemContent
    (53, 39),  -- ISteamUGC_m_SetItemPreview
    (56, 40),  -- ISteamUGC_m_RemoveItemKeyValueTags
    (57, 41),  -- ISteamUGC_m_AddItemKeyValueTag
    (66, 42),  -- ISteamUGC_m_SubmitItemUpdate
    (67, 43),  -- ISteamUGC_m_GetItemUpdateProgress
    (68, 44),  -- ISteamUGC_m_SetUserItemVote
    (69, 45),  -- ISteamUGC_m_GetUserItemVote
    (70, 46),  -- ISteamUGC_m_AddItemToFavorites
    (71, 47),  -- ISteamUGC_m_RemoveItemFromFavorites
    (72, 48),  -- ISteamUGC_m_SubscribeItem
    (73, 49),  -- ISteamUGC_m_UnsubscribeItem
    (74, 50),  -- ISteamUGC_m_GetNumSubscribedItems
    (75, 51),  -- ISteamUGC_m_GetSubscribedItems
    (76, 52),  -- ISteamUGC_m_GetItemState
    (77, 53),  -- ISteamUGC_m_GetItemInstallInfo
    (78, 54),  -- ISteamUGC_m_GetItemDownloadInfo
    (79, 55),  -- ISteamUGC_m_DownloadItem
    (80, 56),  -- ISteamUGC_m_BInitWorkshopForGameServer
    (81, 57)  -- ISteamUGC_m_SuspendDownloads
  ]⟩,
  ⟨0x0002004D00250052, 46, [
    (0, 0),  -- ISteamUGC_m_CreateQueryUserUGCRequest
    (2, 1),  -- ISteamUGC_m_CreateQueryAllUGCRequestPage
    (3, 2),  -- ISteamUGC_m_CreateQueryUGCDetailsRequest
    (4, 3),  -- ISteamUGC_m_SendQueryUGCRequest
    (5, 4),  -- ISteamUGC_m_GetQueryUGCResult
    (9, 5),  -- ISteamUGC_m_GetQueryUGCPreviewURL
    (10, 6),  -- ISteamUGC_m_GetQueryUGCMetadata
    (11, 7),  -- ISteamUGC_m_GetQueryUGCChildren
    (12, 8),  -- ISteamUGC_m_GetQueryUGCStatistic
    (13, 9),  -- ISteamUGC_m_GetQueryUGCNumAdditionalPreviews
    (14, 10),  -- ISteamUGC_m_GetQueryUGCAdditionalPreview
    (21, 11),  -- ISteamUGC_m_ReleaseQueryUGCRequest
    (22, 12),  -- ISteamUGC_m_AddRequiredTag
    (24, 13),  -- ISteamUGC_m_AddExcludedTag
    (27, 14),  -- ISteamUGC_m_SetReturnLongDescription
    (28, 15),  -- ISteamUGC_m_SetReturnMetadata
    (29, 16),  -- ISteamUGC_m_SetReturnChildren
    (30, 17),  -- ISteamUGC_m_SetReturnAdditionalPreviews
    (31, 18),  -- ISteamUGC_m_SetReturnTotalOnly
    (34, 19),  -- ISteamUGC_m_SetAllowCachedResponse
    (36, 20),  -- ISteamUGC_m_SetCloudFileNameFilter
    (37, 21),  -- ISteamUGC_m_SetMatchAnyTag
    (38, 22),  -- ISteamUGC_m_SetSearchText
    (39, 23),  -- ISteamUGC_m_SetRankedByTrendDays
    (43, 24),  -- ISteamUGC_m_RequestUGCDetails
    (44, 25),  -- ISteamUGC_m_CreateItem
    (45, 26),  -- ISteamUGC_m_StartItemUpdate
    (46, 27),  -- ISteamUGC_m_SetItemTitle
    (47, 28),  -- ISteamUGC_m_SetItemDescription
    (49, 29),  -- ISteamUGC_m_SetItemMetadata
    (50, 30),  -- ISteamUGC_m_SetItemVisibility
    (51, 31),  -- ISteamUGC_m_SetItemTags
    (52, 32),  -- ISteamUGC_m_SetItemContent
    (53, 33),  -- ISteamUGC_m_SetItemPreview
    (66, 34),  -- ISteamUGC_m_SubmitItemUpdate
    (67, 35),  -- ISteamUGC_m_GetItemUpdateProgress
    (70, 36),  -- ISteamUGC_m_AddItemToFavorites
    (71, 37),  -- ISteamUGC_m_RemoveItemFromFavorites
    (72, 38),  -- ISteamUGC_m_SubscribeItem
    (73, 39),  -- ISteamUGC_m_UnsubscribeItem
    (74, 40),  -- ISteamUGC_m_GetNumSubscribedItems
    (75, 41),  -- ISteamUGC_m_GetSubscribedItems
    (76, 42),  -- ISteamUGC_m_GetItemState
    (77, 43),  -- ISteamUGC_m_GetItemInstallInfo
    (78, 44),  -- ISteamUGC_m_GetItemDownloadInfo
    (79, 45)  -- ISteamUGC_m_DownloadItem
  ]⟩,
  ⟨0x000200130022005D, 31, [
    (0, 0),  -- ISteamUGC_m_CreateQueryUserUGCRequest
    (2, 1),  -- ISteamUGC_m_CreateQueryAllUGCRequestPage
    (4, 2),  -- ISteamUGC_m_SendQueryUGCRequest
    (5, 3),  -- ISteamUGC_m_GetQueryUGCResult
    (21, 4),  -- ISteamUGC_m_ReleaseQueryUGCRequest
    (22, 5),  -- ISteamUGC_m_AddRequiredTag
    (24, 6),  -- ISteamUGC_m_AddExcludedTag
    (27, 7),  -- ISteamUGC_m_SetReturnLongDescription
    (31, 8),  -- ISteamUGC_m_SetReturnTotalOnly
    (34, 9),  -- ISteamUGC_m_SetAllowCachedResponse
    (36, 10),  -- ISteamUGC_m_SetCloudFileNameFilter
    (37, 11),  -- ISteamUGC_m_SetMatchAnyTag
    (38, 12),  -- ISteamUGC_m_SetSearchText
    (39, 13),  -- ISteamUGC_m_SetRankedByTrendDays
    (43, 14),  -- ISteamUGC_m_RequestUGCDetails
    (44, 15),  -- ISteamUGC_m_CreateItem
    (45, 16),  -- ISteamUGC_m_StartItemUpdate
    (46, 17),  -- ISteamUGC_m_SetItemTitle
    (47, 18),  -- ISteamUGC_m_SetItemDescription
    (50, 19),  -- ISteamUGC_m_SetItemVisibility
    (51, 20),  -- ISteamUGC_m_SetItemTags
    (52, 21),  -- ISteamUGC_m_SetItemContent
    (53, 22),  -- ISteamUGC_m_SetItemPreview
    (66, 23),  -- ISteamUGC_m_SubmitItemUpdate
    (67, 24),  -- ISteamUGC_m_GetItemUpdateProgress
    (72, 25),  -- ISteamUGC_m_SubscribeItem
    (73, 26),  -- ISteamUGC_m_UnsubscribeItem
    (74, 27),  -- ISteamUGC_m_GetNumSubscribedItems
    (75, 28),  -- ISteamUGC_m_GetSubscribedItems
    (77, 29),  -- ISteamUGC_m_GetItemInstallInfo
    (78, 30)  -- ISteamUGC_m_GetItemUpdateInfo
  ]⟩,
  ⟨0x0000000000000000, 14, [
    (0, 0),  -- ISteamUGC_m_CreateQueryUserUGCRequest
    (2, 1),  -- ISteamUGC_m_CreateQueryAllUGCRequestPage
    (4, 2),  -- ISteamUGC_m_SendQueryUGCRequest
    (5, 3),  -- ISteamUGC_m_GetQueryUGCResult
    (21, 4),  -- ISteamUGC_m_ReleaseQueryUGCRequest
    (22, 5),  -- ISteamUGC_m_AddRequiredTag
    (24, 6),  -- ISteamUGC_m_AddExcludedTag
    (27, 7),  -- ISteamUGC_m_SetReturnLongDescription
    (31, 8),  -- ISteamUGC_m_SetReturnTotalOnly
    (36, 9),  -- ISteamUGC_m_SetCloudFileNameFilter
    (37, 10),  -- ISteamUGC_m_SetMatchAnyTag
    (38, 11),  -- ISteamUGC_m_SetSearchText
    (39, 12),  -- ISteamUGC_m_SetRankedByTrendDays
    (43, 13)  -- ISteamUGC_m_RequestUGCDetails
  ]⟩
]

def ISteamUGC_maxMethods : Nat := 96

def ISteamUser_branches : List VmBranch := [
  ⟨0x000800020015005F, 33, idAssigns 33⟩,
  ⟨0x0005005C0024004B, 32, [
    (0, 0),  -- ISteamUser_m_GetHSteamUser
    (1, 1),  -- ISteamUser_m_BLoggedOn
    (2, 2),  -- ISteamUser_m_GetSteamID
    (3, 3),  -- ISteamUser_m_InitiateGameConnection
    (4, 4),  -- ISteamUser_m_TerminateGameConnection
    (5, 5),  -- ISteamUser_m_TrackAppUsageEvent
    (6, 6),  -- ISteamUser_m_GetUserDataFolder
    (7, 7),  -- ISteamUser_m_StartVoiceRecording
    (8, 8),  -- ISteamUser_m_StopVoiceRecording
    (9, 9),  -- ISteamUser_m_GetAvailableVoice
    (10, 10),  -- ISteamUser_m_GetVoice
    (11, 11),  -- ISteamUser_m_DecompressVoice
    (12, 12),  -- ISteamUser_m_GetVoiceOptimalSampleRate
    (13, 13),  -- ISteamUser_m_GetAuthSessionTicket
    (15, 14),  -- ISteamUser_m_BeginAuthSession
    (16, 15),  -- ISteamUser_m_EndAuthSession
    (17, 16),  -- ISteamUser_m_CancelAuthTicket
    (18, 17),  -- ISteamUser_m_UserHasLicenseForApp
    (19, 18),  -- ISteamUser_m_BIsBehindNAT
    (20, 19),  -- ISteamUser_m_AdvertiseGame
    (21, 20),  -- ISteamUser_m_RequestEncryptedAppTicket
    (22, 21),  -- ISteamUser_m_GetEncryptedAppTicket
    (23, 22),  -- ISteamUser_m_GetGameBadgeLevel
    (24, 23),  -- ISteamUser_m_GetPlayerSteamLevel
    (25, 24),  -- ISteamUser_m_RequestStoreAuthURL
    (26, 25),  -- ISteamUser_m_BIsPhoneVerified
    (27, 26),  -- ISteamUser_m_BIsTwoFactorEnabled
    (28, 27),  -- ISteamUser_m_BIsPhoneIdentifying
    (29, 28),  -- ISteamUser_m_BIsPhoneRequiringVerification
    (30, 29),  -- ISteamUser_m_GetMarketEligibility
    (31, 30),  -- ISteamUser_m_GetDurationControl
    (32, 31)  -- ISteamUser_m_BSetDurationControlOnlineState
  ]⟩,
  ⟨0x0004005F0014001E, 31, [
    (0, 0),  -- ISteamUser_m_GetHSteamUser
    (1, 1),  -- ISteamUser_m_BLoggedOn
    (2, 2),  -- ISteamUser_m_GetSteamID
    (3, 3),  -- ISteamUser_m_InitiateGameConnection
    (4, 4),  -- ISteamUser_m_TerminateGameConnection
    (5, 5),  -- ISteamUser_m_TrackAppUsageEvent
    (6, 6),  -- ISteamUser_m_GetUserDataFolder
    (7, 7),  -- ISteamUser_m_StartVoiceRecording
    (8, 8),  -- ISteamUser_m_StopVoiceRecording
    (9, 9),  -- ISteamUser_m_GetAvailableVoice
    (10, 10),  -- ISteamUser_m_GetVoice
    (11, 11),  -- ISteamUser_m_DecompressVoice
    (12, 12),  -- ISteamUser_m_GetVoiceOptimalSampleRate
    (13, 13),  -- ISteamUser_m_GetAuthSessionTicket
    (15, 14),  -- ISteamUser_m_BeginAuthSession
    (16, 15),  -- ISteamUser_m_EndAuthSession
    (17, 16),  -- ISteamUser_m_CancelAuthTicket
    (18, 17),  -- ISteamUser_m_UserHasLicenseForApp
    (19, 18),  -- ISteamUser_m_BIsBehindNAT
    (20, 19),  -- ISteamUser_m_AdvertiseGame
    (21, 20),  -- ISteamUser_m_RequestEncryptedAppTicket
    (22, 21),  -- ISteamUser_m_GetEncryptedAppTicket
    (23, 22),  -- ISteamUser_m_GetGameBadgeLevel
    (24, 23),  -- ISteamUser_m_GetPlayerSteamLevel
    (25, 24),  -- ISteamUser_m_RequestStoreAuthURL
    (26, 25),  -- ISteamUser_m_BIsPhoneVerified
    (27, 26),  -- ISteamUser_m_BIsTwoFactorEnabled
    (28, 27),  -- ISteamUser_m_BIsPhoneIdentifying
    (29, 28),  -- ISteamUser_m_BIsPhoneRequiringVerification
    (30, 29),  -- ISteamUser_m_GetMarketEligibility
    (31, 30)  -- ISteamUser_m_GetDurationControl
  ]⟩,
  ⟨0x0003002A003D0042, 29, [
    (0, 0),  -- ISteamUser_m_GetHSteamUser
    (1, 1),  -- ISteamUser_m_BLoggedOn
    (2, 2),  -- ISteamUser_m_GetSteamID
    (3, 3),  -- ISteamUser_m_InitiateGameConnection
    (4, 4),  -- ISteamUser_m_TerminateGameConnection
    (5, 5),  -- ISteamUser_m_TrackAppUsageEvent
    (6, 6),  -- ISteamUser_m_GetUserDataFolder
    (7, 7),  -- ISteamUser_m_StartVoiceRecording
    (8, 8),  -- ISteamUser_m_StopVoiceRecording
    (9, 9),  -- ISteamUser_m_GetAvailableVoice
    (10, 10),  -- ISteamUser_m_GetVoice
    (11, 11),  -- ISteamUser_m_DecompressVoice
    (12, 12),  -- ISteamUser_m_GetVoiceOptimalSampleRate
    (13, 13),  -- ISteamUser_m_GetAuthSessionTicket
    (15, 14),  -- ISteamUser_m_BeginAuthSession
    (16, 15),  -- ISteamUser_m_EndAuthSession
    (17, 16),  -- ISteamUser_m_CancelAuthTicket
    (18, 17),  -- ISteamUser_m_UserHasLicenseForApp
    (19, 18),  -- ISteamUser_m_BIsBehindNAT
    (20, 19),  -- ISteamUser_m_AdvertiseGame
    (21, 20),  -- ISteamUser_m_RequestEncryptedAppTicket
    (22, 21),  -- ISteamUser_m_GetEncryptedAppTicket
    (23, 22),  -- ISteamUser_m_GetGameBadgeLevel
    (24, 23),  -- ISteamUser_m_GetPlayerSteamLevel
    (25, 24),  -- ISteamUser_m_RequestStoreAuthURL
    (26, 25),  -- ISteamUser_m_BIsPhoneVerified
    (27, 26),  -- ISteamUser_m_BIsTwoFactorEnabled
    (28, 27),  -- ISteamUser_m_BIsPhoneIdentifying
    (29, 28)  -- ISteamUser_m_BIsPhoneRequiringVerification
  ]⟩,
  ⟨0x0002003B0033002B, 25, [
    (0, 0),  -- ISteamUser_m_GetHSteamUser
    (1, 1),  -- ISteamUser_m_BLoggedOn
    (2, 2),  -- ISteamUser_m_GetSteamID
    (3, 3),  -- ISteamUser_m_InitiateGameConnection
    (4, 4),  -- ISteamUser_m_TerminateGameConnection
    (5, 5),  -- ISteamUser_m_TrackAppUsageEvent
    (6, 6),  -- ISteamUser_m_GetUserDataFolder
    (7, 7),  -- ISteamUser_m_StartVoiceRecording
    (8, 8),  -- ISteamUser_m_StopVoiceRecording
    (9, 9),  -- ISteamUser_m_GetAvailableVoice
    (10, 10),  -- ISteamUser_m_GetVoice
    (11, 11),  -- ISteamUser_m_DecompressVoice
    (12, 12),  -- ISteamUser_m_GetVoiceOptimalSampleRate
    (13, 13),  -- ISteamUser_m_GetAuthSessionTicket
    (15, 14),  -- ISteamUser_m_BeginAuthSession
    (16, 15),  -- ISteamUser_m_EndAuthSession
    (17, 16),  -- ISteamUser_m_CancelAuthTicket
    (18, 17),  -- ISteamUser_m_UserHasLicenseForApp
    (19, 18),  -- ISteamUser_m_BIsBehindNAT
    (20, 19),  -- ISteamUser_m_AdvertiseGame
    (21, 20),  -- ISteamUser_m_RequestEncryptedAppTicket
    (22, 21),  -- ISteamUser_m_GetEncryptedAppTicket
    (23, 22),  -- ISteamUser_m_GetGameBadgeLevel
    (24, 23),  -- ISteamUser_m_GetPlayerSteamLevel
    (25, 24)  -- ISteamUser_m_RequestStoreAuthURL
  ]⟩,
  ⟨0x00010053001F0025, 24, [
    (0, 0),  -- ISteamUser_m_GetHSteamUser
    (1, 1),  -- ISteamUser_m_BLoggedOn
    (2, 2),  -- ISteamUser_m_GetSteamID
    (3, 3),  -- ISteamUser_m_InitiateGameConnection
    (4, 4),  -- ISteamUser_m_TerminateGameConnection
    (5, 5),  -- ISteamUser_m_TrackAppUsageEvent
    (6, 6),  -- ISteamUser_m_GetUserDataFolder
    (7, 7),  -- ISteamUser_m_StartVoiceRecording
    (8, 8),  -- ISteamUser_m_StopVoiceRecording
    (9, 9),  -- ISteamUser_m_GetAvailableVoice
    (10, 10),  -- ISteamUser_m_GetVoice
    (11, 11),  -- ISteamUser_m_DecompressVoice
    (12, 12),  -- ISteamUser_m_GetVoiceOptimalSampleRate
    (13, 13),  -- ISteamUser_m_GetAuthSessionTicket
    (15, 14),  -- ISteamUser_m_BeginAuthSession
    (16, 15),  -- ISteamUser_m_EndAuthSession
    (17, 16),  -- ISteamUser_m_CancelAuthTicket
    (18, 17),  -- ISteamUser_m_UserHasLicenseForApp
    (19, 18),  -- ISteamUser_m_BIsBehindNAT
    (20, 19),  -- ISteamUser_m_AdvertiseGame
    (21, 20),  -- ISteamUser_m_RequestEncryptedAppTicket
    (22, 21),  -- ISteamUser_m_GetEncryptedAppTicket
    (23, 22),  -- ISteamUser_m_GetGameBadgeLevel
    (24, 23)  -- ISteamUser_m_GetPlayerSteamLevel
  ]⟩,
  ⟨0x000100060063003D, 22, [
    (0, 0),  -- ISteamUser_m_GetHSteamUser
    (1, 1),  -- ISteamUser_m_BLoggedOn
    (2, 2),  -- ISteamUser_m_GetSteamID
    (3, 3),  -- ISteamUser_m_InitiateGameConnection
    (4, 4),  -- ISteamUser_m_TerminateGameConnection
    (5, 5),  -- ISteamUser_m_TrackAppUsageEvent
    (6, 6),  -- ISteamUser_m_GetUserDataFolder
    (7, 7),  -- ISteamUser_m_StartVoiceRecording
    (8, 8),  -- ISteamUser_m_StopVoiceRecording
    (9, 9),  -- ISteamUser_m_GetAvailableVoice
    (10, 10),  -- ISteamUser_m_GetVoice
    (11, 11),  -- ISteamUser_m_DecompressVoice
    (12, 12),  -- ISteamUser_m_GetVoiceOptimalSampleRate
    (13, 13),  -- ISteamUser_m_GetAuthSessionTicket
    (15, 14),  -- ISteamUser_m_BeginAuthSession
    (16, 15),  -- ISteamUser_m_EndAuthSession
    (17, 16),  -- ISteamUser_m_CancelAuthTicket
    (18, 17),  -- ISteamUser_m_UserHasLicenseForApp
    (19, 18),  -- ISteamUser_m_BIsBehindNAT
    (20, 19),  -- ISteamUser_m_AdvertiseGame
    (21, 20),  -- ISteamUser_m_RequestEncryptedAppTicket
    (22, 21)  -- ISteamUser_m_GetEncryptedAppTicket
  ]⟩,
  ⟨0x0000000000000000, 21, [
    (0, 0),  -- ISteamUser_m_GetHSteamUser
    (1, 1),  -- ISteamUser_m_BLoggedOn
    (2, 2),  -- ISteamUser_m_GetSteamID
    (3, 3),  -- ISteamUser_m_InitiateGameConnection
    (4, 4),  -- ISteamUser_m_TerminateGameConnection
    (5, 5),  -- ISteamUser_m_TrackAppUsageEvent
    (6, 6),  -- ISteamUser_m_GetUserDataFolder
    (7, 7),  -- ISteamUser_m_StartVoiceRecording
    (8, 8),  -- ISteamUser_m_StopVoiceRecording
    (9, 9),  -- ISteamUser_m_GetAvailableVoice
    (10, 10),  -- ISteamUser_m_GetVoice
    (11, 11),  -- ISteamUser_m_DecompressVoice
    (13, 12),  -- ISteamUser_m_GetAuthSessionTicket
    (15, 13),  -- ISteamUser_m_BeginAuthSession
    (16, 14),  -- ISteamUser_m_EndAuthSession
    (17, 15),  -- ISteamUser_m_CancelAuthTicket
    (18, 16),  -- ISteamUser_m_UserHasLicenseForApp
    (19, 17),  -- ISteamUser_m_BIsBehindNAT
    (20, 18),  -- ISteamUser_m_AdvertiseGame
    (21, 19),  -- ISteamUser_m_RequestEncryptedAppTicket
    (22, 20)  -- ISteamUser_m_GetEncryptedAppTicket
  ]⟩
]

def ISteamUser_maxMethods : Nat := 33

def ISteamUtils_branches : List VmBranch := [
  ⟨0x000600060063003B, 39, idAssigns 39⟩,
  ⟨0x0003005C0048003A, 34, idAssigns 34⟩,
  ⟨0x0003002A003D0042, 28, idAssigns 28⟩,
  ⟨0x000200130022005D, 26, idAssigns 26⟩,
  ⟨0x00010053001F0025, 25, idAssigns 25⟩,
  ⟨0x0000000000000000, 23, idAssigns 23⟩
]

def ISteamUtils_maxMethods : Nat := 39

/-! ### Logical method identifiers (steam_api.hpp enums) used by the wrapper
installation code of `SteamAPI_Init` (steam_api.cpp 1720-1776) and of the
346110 post-init callback (steam/346110.cpp 467-541). -/

def ISteamApps_m_BIsSubscribed : Nat := 0
def ISteamApps_m_BIsSubscribedApp : Nat := 6
def ISteamApps_m_BIsDlcInstalled : Nat := 7
def ISteamApps_m_BIsSubscribedFromFreeWeekend : Nat := 9
def ISteamApps_m_GetDLCCount : Nat := 10
def ISteamApps_m_BGetDLCDataByIndex : Nat := 11
def ISteamApps_m_BIsAppInstalled : Nat := 19
def ISteamApps_m_GetAppOwner : Nat := 20
def ISteamApps_m_BIsSubscribedFromFamilySharing : Nat := 27
def ISteamApps_m_BIsTimedTrial : Nat := 28
def ISteamUser_m_UserHasLicenseForApp : Nat := 18
def ISteamUtils_m_GetAppID : Nat := 9
def ISteamUtils_m_IsAPICallCompleted : Nat := 11
def ISteamUtils_m_GetAPICallResult : Nat := 13
def ISteamUGC_m_SubscribeItem : Nat := 72
def ISteamUGC_m_GetNumSubscribedItems : Nat := 74
def ISteamUGC_m_GetSubscribedItems : Nat := 75
def ISteamUGC_m_GetItemInstallInfo : Nat := 77
def ISteamUGC_m_GetItemUpdateInfo : Nat := 78
def ISteamMatchmakingServers_m_RequestInternetServerList : Nat := 0
def ISteamMatchmakingServers_m_ServerRules : Nat := 15

/-- Highest supported steam_api64.dll file version (steam_api.hpp line 394). -/
def max_supported_ver : Nat := 0x0009003C002C000A

/-! ### C7: slot-map bounds -/

/-- A branch is well-bounded for an interface of maximum table size `maxM`:
its `num_methods` fits the compile-time array, and every non-absent `vm_idxs`
entry is a valid slot below `num_methods`. -/
def branchOK (maxM : Nat) (b : VmBranch) : Prop :=
  b.numMethods ≤ maxM ∧
  ∀ id < maxM, vmIdx b id = -1 ∨
    (0 ≤ vmIdx b id ∧ vmIdx b id < (b.numMethods : Int))

instance (maxM : Nat) (b : VmBranch) : Decidable (branchOK maxM b) := by
  unfold branchOK; infer_instance

/-- All six interface chains of `SteamAPI_Init`, each with its compile-time
maximum table size. -/
def interfaceTables : List (List VmBranch × Nat) := [
  (ISteamApps_branches, ISteamApps_maxMethods),
  (ISteamMatchmaking_branches, ISteamMatchmaking_maxMethods),
  (ISteamMatchmakingServers_branches, ISteamMatchmakingServers_maxMethods),
  (ISteamUGC_branches, ISteamUGC_maxMethods),
  (ISteamUser_branches, ISteamUser_maxMethods),
  (ISteamUtils_branches, ISteamUtils_maxMethods)
]

/-- C7: for every interface and every version branch, every non-absent
`vm_idxs` entry is a valid index strictly below that branch's `num_methods`,
and `num_methods` never exceeds the interface's compile-time maximum. -/
theorem C7_slot_bounds :
    ∀ t ∈ interfaceTables, ∀ b ∈ t.1, branchOK t.2 b := by decide

/-- C7 witness: the highest ISteamUser branch (33 methods) is well-bounded. -/
theorem C7_slot_bounds_witness :
    branchOK ISteamUser_maxMethods ⟨0x000800020015005F, 33, idAssigns 33⟩ :=
  C7_slot_bounds (ISteamUser_branches, ISteamUser_maxMethods) (by decide)
    ⟨0x000800020015005F, 33, idAssigns 33⟩ (by decide)

/-! ### C4: absent methods and wrapper installation -/

/-- The six wrapped interfaces. -/
inductive IfaceId
  | apps | matchmaking | matchmakingServers | ugc | user | utils
deriving DecidableEq, Repr

/-- Branch chain used for each interface. -/
def branchesFor : IfaceId → List VmBranch
  | .apps => ISteamApps_branches
  | .matchmaking => ISteamMatchmaking_branches
  | .matchmakingServers => ISteamMatchmakingServers_branches
  | .ugc => ISteamUGC_branches
  | .user => ISteamUser_branches
  | .utils => ISteamUtils_branches

/-- One interception-function installation into a shadow vtable:
the target interface, the logical method id, and whether the source guards the
write with an `idx >= 0` test. -/
structure Install where
  ifc : IfaceId
  methodId : Nat
  guarded : Bool
deriving DecidableEq, Repr

/-- Wrapper installations performed by `SteamAPI_Init` itself
(steam_api.cpp lines 1720-1776), with their `idx >= 0` guards. -/
def steamInit_installs : List Install := [
  ⟨.apps, ISteamApps_m_BIsSubscribed, false⟩,
  ⟨.apps, ISteamApps_m_BIsSubscribedApp, false⟩,
  ⟨.apps, ISteamApps_m_BIsDlcInstalled, false⟩,
  ⟨.apps, ISteamApps_m_BIsSubscribedFromFreeWeekend, true⟩,
  ⟨.apps, ISteamApps_m_GetDLCCount, true⟩,
  ⟨.apps, ISteamApps_m_BGetDLCDataByIndex, true⟩,
  ⟨.apps, ISteamApps_m_BIsAppInstalled, true⟩,
  ⟨.apps, ISteamApps_m_GetAppOwner, true⟩,
  ⟨.apps, ISteamApps_m_BIsSubscribedFromFamilySharing, true⟩,
  ⟨.apps, ISteamApps_m_BIsTimedTrial, true⟩,
  ⟨.user, ISteamUser_m_UserHasLicenseForApp, false⟩,
  ⟨.utils, ISteamUtils_m_GetAppID, false⟩
]

/-- Wrapper installations performed by the 346110 post-init callback
(steam/346110.cpp lines 467-541); none of them tests `vm_idxs` for `-1`. -/
def steam_api_init_346110_installs : List Install := [
  ⟨.matchmakingServers, ISteamMatchmakingServers_m_RequestInternetServerList, false⟩,
  ⟨.matchmakingServers, ISteamMatchmakingServers_m_ServerRules, false⟩,
  ⟨.ugc, ISteamUGC_m_GetNumSubscribedItems, false⟩,
  ⟨.ugc, ISteamUGC_m_GetSubscribedItems, false⟩,
  ⟨.ugc, ISteamUGC_m_GetItemInstallInfo, false⟩,
  ⟨.ugc, ISteamUGC_m_SubscribeItem, false⟩,
  ⟨.ugc, ISteamUGC_m_GetItemUpdateInfo, false⟩,
  ⟨.utils, ISteamUtils_m_IsAPICallCompleted, false⟩,
  ⟨.utils, ISteamUtils_m_GetAPICallResult, false⟩
]

/-- C4 (code bug): the 346110 callback installs the
`SteamUGC_GetNumSubscribedItems` wrapper without an `idx >= 0` guard, yet at
the supported version `0x00010062001F0049` (the "STEAMUGC_INTERFACE_VERSION001"
branch of the ISteamUGC chain) the resolved slot of that logical method is the
absent sentinel `-1`, so the interception function is written through an absent
index, contradicting the claimed safety property. -/
theorem C4_unguarded_absent_install :
    Install.mk IfaceId.ugc ISteamUGC_m_GetNumSubscribedItems false
      ∈ steam_api_init_346110_installs ∧
    0x00010062001F0049 ≤ max_supported_ver ∧
    (selectBranch ISteamUGC_branches 0x00010062001F0049).map
      (fun b => vmIdx b ISteamUGC_m_GetNumSubscribedItems) = some (-1) := by
  refine ⟨by decide, by decide, ?_⟩
  rfl

/-! ### C2: vtable shadowing (steam_api.cpp lines 383-390 and wrapper_desc,
steam_api.hpp lines 33-51)

Function pointers are `Nat`s; the heap maps a table identifier to its slot
contents.  `shadowSetup` performs the four source steps for one interface:
capture `orig_vtable`, copy `num_methods` entries into the descriptor's own
array (a distinct table identifier), and repoint the live instance.  Each
subsequent override writes one slot of the shadow table only. -/

/-- Heap of method tables plus the live instance's table pointer. -/
structure ShadowState where
  ifaceVt : Nat
  heap : Nat → Nat → Nat

/-- Descriptor fields filled by the shadowing sequence
(`orig_vtable` and `num_methods` of `wrapper_desc`). -/
structure WrapperDesc where
  numMethods : Nat
  origVtable : Nat

/-- Steps of steam_api.cpp 383-387: `orig_vtable = ptr->vtable`,
`copy_n(ptr->vtable, num_methods, vtable.begin())`,
`ptr->vtable = vtable.data()`.  `freshTid` is the identifier of the
descriptor's own `vtable` array. -/
def shadowSetup (s : ShadowState) (freshTid n : Nat) : ShadowState × WrapperDesc :=
  let orig := s.ifaceVt
  (⟨freshTid,
    fun t i => if t = freshTid ∧ i < n then s.heap orig i else s.heap t i⟩,
   ⟨n, orig⟩)

/-- One override `vtable[slot] = fn` on table `tid`. -/
def overrideSlot (s : ShadowState) (tid slot fn : Nat) : ShadowState :=
  ⟨s.ifaceVt, fun t i => if t = tid ∧ i = slot then fn else s.heap t i⟩

/-- A sequence of overrides applied to the shadow table. -/
def applyOverrides (s : ShadowState) (tid : Nat) (ovs : List (Nat × Nat)) :
    ShadowState :=
  ovs.foldl (fun st p => overrideSlot st tid p.1 p.2) s

theorem applyOverrides_ifaceVt (s : ShadowState) (tid : Nat)
    (ovs : List (Nat × Nat)) : (applyOverrides s tid ovs).ifaceVt = s.ifaceVt := by
  induction ovs generalizing s with
  | nil => rfl
  | cons p rest ih => exact (ih _).trans rfl

theorem applyOverrides_heap_untouched (s : ShadowState) (tid : Nat)
    (ovs : List (Nat × Nat)) (t i : Nat)
    (h : ∀ p ∈ ovs, ¬ (t = tid ∧ i = p.1)) :
    (applyOverrides s tid ovs).heap t i = s.heap t i := by
  induction ovs generalizing s with
  | nil => rfl
  | cons p rest ih =>
    have hp := h p (List.mem_cons_self p rest)
    have hrest : ∀ q ∈ rest, ¬ (t = tid ∧ i = q.1) :=
      fun q hq => h q (List.mem_cons_of_mem p hq)
    calc (applyOverrides (overrideSlot s tid p.1 p.2) tid rest).heap t i
        = (overrideSlot s tid p.1 p.2).heap t i := ih _ hrest
      _ = s.heap t i := by simp [overrideSlot, hp]

/-- C2: shadowing with `n` methods followed by a list of slot overrides
(on the shadow table) records the pre-shadow table pointer in `orig_vtable`,
leaves every non-overridden shadow entry equal to the corresponding original
entry, repoints the live instance at the shadow table, and never writes the
original table. -/
theorem C2_shadow_preserves_original (s : ShadowState) (freshTid n : Nat)
    (ovs : List (Nat × Nat)) (hfresh : freshTid ≠ s.ifaceVt) :
    (shadowSetup s freshTid n).2.origVtable = s.ifaceVt ∧
    (∀ i < n, (∀ p ∈ ovs, p.1 ≠ i) →
      (applyOverrides (shadowSetup s freshTid n).1 freshTid ovs).heap freshTid i
        = s.heap s.ifaceVt i) ∧
    (applyOverrides (shadowSetup s freshTid n).1 freshTid ovs).ifaceVt
      = freshTid ∧
    (∀ i, (applyOverrides (shadowSetup s freshTid n).1 freshTid ovs).heap
      s.ifaceVt i = s.heap s.ifaceVt i) := by
  refine ⟨rfl, ?_, ?_, ?_⟩
  · intro i hi hov
    have h1 : (applyOverrides (shadowSetup s freshTid n).1 freshTid ovs).heap
        freshTid i = (shadowSetup s freshTid n).1.heap freshTid i := by
      refine applyOverrides_heap_untouched _ _ _ _ _ ?_
      intro p hp hc
      exact hov p hp hc.2.symm
    rw [h1]
    simp [shadowSetup, hi]
  · rw [applyOverrides_ifaceVt]; rfl
  · intro i
    have h1 : (applyOverrides (shadowSetup s freshTid n).1 freshTid ovs).heap
        s.ifaceVt i = (shadowSetup s freshTid n).1.heap s.ifaceVt i := by
      refine applyOverrides_heap_untouched _ _ _ _ _ ?_
      intro p hp hc
      exact hfresh (hc.1.symm)
    rw [h1]
    simp [shadowSetup, fun h : s.ifaceVt = freshTid => hfresh h.symm]

/-- Concrete shadow state for the C2 witness: the live instance points at
table 0 whose slot `i` holds function pointer `100 + i`. -/
def shadowHarness : ShadowState := ⟨0, fun t i => 100 * t + 100 + i⟩

/-- C2 witness: the specification's five-method harness with overrides at
slots 1 and 3; the three non-overridden slots of the shadow equal the original
entries, the original table is untouched, and `orig_vtable` is table 0. -/
theorem C2_shadow_preserves_original_witness :
    (1 : Nat) ≠ shadowHarness.ifaceVt ∧
    ((shadowSetup shadowHarness 1 5).2.origVtable = shadowHarness.ifaceVt ∧
    (∀ i < 5, (∀ p ∈ [(1, 777), (3, 888)], (p : Nat × Nat).1 ≠ i) →
      (applyOverrides (shadowSetup shadowHarness 1 5).1 1
        [(1, 777), (3, 888)]).heap 1 i
        = shadowHarness.heap shadowHarness.ifaceVt i) ∧
    (applyOverrides (shadowSetup shadowHarness 1 5).1 1
      [(1, 777), (3, 888)]).ifaceVt = 1 ∧
    (∀ i, (applyOverrides (shadowSetup shadowHarness 1 5).1 1
      [(1, 777), (3, 888)]).heap shadowHarness.ifaceVt i
        = shadowHarness.heap shadowHarness.ifaceVt i)) :=
  ⟨by decide, C2_shadow_preserves_original shadowHarness 1 5
    [(1, 777), (3, 888)] (by decide)⟩

/-! ### C5: import patching (`wrap_init`, steam_api.cpp lines 1800-1870)

The host image's import machinery is modelled structurally: an optional
regular import descriptor table and an optional delay-load descriptor table,
each a list of descriptors carrying a module name and the parallel name-thunk
entries.  The address-table cell of entry `ei` of descriptor `di` is named by a
`SlotRef`; the image's function-pointer cells are a map from `SlotRef`.  The
regular name-thunk scan skips ordinal entries (`IMAGE_ORDINAL_FLAG` test at
line 1820); the delay-load scan performs no such test (lines 1852-1855). -/

/-- One name-thunk entry of an import descriptor. -/
structure ImportEntry where
  isOrdinal : Bool
  symName : String
deriving DecidableEq, Repr

/-- One import (or delay-load) descriptor: module name and name-thunk array. -/
structure ImportDesc where
  dllName : String
  entries : List ImportEntry
deriving DecidableEq, Repr

/-- The parts of the host image that `wrap_init` inspects. -/
structure PEImage where
  regularDescs : Option (List ImportDesc)
  delayDescs : Option (List ImportDesc)
deriving DecidableEq, Repr

/-- A function-pointer cell of the image: entry `ei` of the address table
parallel to name-thunk array of descriptor `di`, in the regular or the
delay-load directory. -/
inductive SlotRef
  | regular (di ei : Nat)
  | delay (di ei : Nat)
deriving DecidableEq, Repr

/-- Scan a descriptor list for module "steam_api64.dll" (first match only,
as `ranges::find`), then scan its name thunks for "SteamAPI_Init";
`skipOrd` is the regular path's ordinal-flag test. -/
def findThunkIn (skipOrd : Bool) (ds : List ImportDesc) : Option (Nat × Nat) :=
  match ds.findIdx? (fun d => d.dllName == "steam_api64.dll") with
  | none => none
  | some di =>
    match ds[di]? with
    | none => none
    | some d =>
      (d.entries.findIdx?
        (fun e => (!skipOrd || !e.isOrdinal) && e.symName == "SteamAPI_Init")).map
        (fun ei => (di, ei))

/-- The writable slot `wrap_init` locates: the regular import directory is
searched first, and the delay-load directory only if that search left
`thunk_ptr` null. -/
def wrapInitSlot (img : PEImage) : Option SlotRef :=
  match img.regularDescs.bind (findThunkIn true) with
  | some p => some (SlotRef.regular p.1 p.2)
  | none =>
    (img.delayDescs.bind (findThunkIn false)).map
      (fun p => SlotRef.delay p.1 p.2)

/-- Final effect of `wrap_init` on the image's function-pointer cells:
`*thunk_ptr = SteamAPI_Init` when a slot was found, no write otherwise. -/
def wrapInit (img : PEImage) (cells : SlotRef → Nat) (newFn : Nat) :
    SlotRef → Nat :=
  match wrapInitSlot img with
  | none => cells
  | some s => fun t => if t = s then newFn else cells t

/-- C5: the regular import search runs first and alone decides the slot when
it succeeds; when it fails and the delay-load search finds the symbol, the
delay-load address-table cell (and only it) is overwritten; when both
strategies fail, no function-pointer cell of the image is modified. -/
theorem C5_import_patch_order (img : PEImage) (cells : SlotRef → Nat)
    (newFn : Nat) :
    (∀ di ei, img.regularDescs.bind (findThunkIn true) = some (di, ei) →
      wrapInitSlot img = some (SlotRef.regular di ei) ∧
      wrapInit img cells newFn (SlotRef.regular di ei) = newFn ∧
      ∀ t, t ≠ SlotRef.regular di ei → wrapInit img cells newFn t = cells t) ∧
    (∀ di ei, img.regularDescs.bind (findThunkIn true) = none →
      img.delayDescs.bind (findThunkIn false) = some (di, ei) →
      wrapInitSlot img = some (SlotRef.delay di ei) ∧
      wrapInit img cells newFn (SlotRef.delay di ei) = newFn ∧
      ∀ t, t ≠ SlotRef.delay di ei → wrapInit img cells newFn t = cells t) ∧
    (img.regularDescs.bind (findThunkIn true) = none →
      img.delayDescs.bind (findThunkIn false) = none →
      ∀ t, wrapInit img cells newFn t = cells t) := by
  refine ⟨?_, ?_, ?_⟩
  · intro di ei hreg
    have hs : wrapInitSlot img = some (SlotRef.regular di ei) := by
      simp [wrapInitSlot, hreg]
    refine ⟨hs, ?_, ?_⟩
    · simp [wrapInit, hs]
    · intro t ht
      simp [wrapInit, hs, ht]
  · intro di ei hreg hdel
    have hs : wrapInitSlot img = some (SlotRef.delay di ei) := by
      simp [wrapInitSlot, hreg, hdel]
    refine ⟨hs, ?_, ?_⟩
    · simp [wrapInit, hs]
    · intro t ht
      simp [wrapInit, hs, ht]
  · intro hreg hdel t
    have hs : wrapInitSlot img = none := by
      simp [wrapInitSlot, hreg, hdel]
    simp [wrapInit, hs]

/-- Scenario-D image: no regular import directory at all, one delay-load
descriptor for steam_api64.dll whose second name-thunk entry is
"SteamAPI_Init". -/
def delayOnlyImage : PEImage :=
  ⟨none,
   some [⟨"steam_api64.dll",
     [⟨false, "CreateInterface"⟩, ⟨false, "SteamAPI_Init"⟩]⟩]⟩

/-- C5 witness (end-to-end scenario D): on `delayOnlyImage` the regular search
finds nothing, the delay-load search locates descriptor 0, entry 1, and
`wrap_init` overwrites exactly that delay-load address-table cell. -/
theorem C5_import_patch_order_witness :
    delayOnlyImage.regularDescs.bind (findThunkIn true) = none ∧
    delayOnlyImage.delayDescs.bind (findThunkIn false) = some (0, 1) ∧
    (wrapInitSlot delayOnlyImage = some (SlotRef.delay 0 1) ∧
      wrapInit delayOnlyImage (fun _ => 5) 42 (SlotRef.delay 0 1) = 42 ∧
      ∀ t, t ≠ SlotRef.delay 0 1 →
        wrapInit delayOnlyImage (fun _ => 5) 42 t = 5) :=
  ⟨rfl, rfl,
    (C5_import_patch_order delayOnlyImage (fun _ => 5) 42).2.1 0 1 rfl rfl⟩

/-! ### C6 and C9: the `SteamAPI_Init` wrapper (steam_api.cpp lines 152-215,
1792-1795)

The wrapper is modelled as a pure function of an environment carrying the
results of the external calls it makes: the two possible invocations of the
real `SteamAPI_Init`, and the outcome of the version-resource query (`none`
models any of the `version_fail` paths: missing resource, missing version
block, or `VerQueryValueW` failure).  Besides the returned boolean and the
final `spoof_app_id`, the model records an ordered trace of the wrapper's
externally visible actions; interface shadowing appears in the trace only on
the success path, exactly as in the source. -/

/-- Externally visible actions of the init wrapper, in program order. -/
inductive InitEvent
  | callOrigInit (appIdEnv : Nat)
  | setSpoof (v : Nat)
  | shadow (ifc : IfaceId)
  | installWrappers
deriving DecidableEq, Repr

/-- Environment of one run of the wrapper. -/
structure InitEnv where
  appId : Nat
  spoofAppId : Nat
  origInitFirst : Bool
  origInitFallback : Bool
  versionInfo : Option Nat
deriving DecidableEq, Repr

/-- Result of one run of the wrapper. -/
structure InitResult where
  ret : Bool
  spoofAfter : Nat
  events : List InitEvent
deriving DecidableEq, Repr

/-- Lines 152-174: first real init call (with `spoof_app_id` if nonzero, else
`app_id`), and on `spoof_app_id == 0` the write-back of the effective id,
retrying once with 480. -/
def initPhase (e : InitEnv) : Bool × Nat × List InitEvent :=
  let firstApp := if e.spoofAppId = 0 then e.appId else e.spoofAppId
  if e.spoofAppId = 0 then
    if e.origInitFirst then
      (true, e.appId, [.callOrigInit firstApp, .setSpoof e.appId])
    else if e.origInitFallback then
      (true, 480, [.callOrigInit firstApp, .callOrigInit 480, .setSpoof 480])
    else
      (false, 0, [.callOrigInit firstApp, .callOrigInit 480])
  else
    (e.origInitFirst, e.spoofAppId, [.callOrigInit firstApp])

/-- Interfaces shadowed on the success path (lines 216-1714); `ISteamUGC` is
shadowed only when its pointer was obtained, i.e. from file version
`0x00010062001F0049` (Steamworks SDK v1.26) on. -/
def shadowEvents (v : Nat) : List InitEvent :=
  [.shadow .apps, .shadow .matchmaking, .shadow .matchmakingServers] ++
  (if 0x00010062001F0049 ≤ v then [InitEvent.shadow .ugc] else []) ++
  [.shadow .user, .shadow .utils, .installWrappers]

/-- The wrapper: init phase, then version probe (`version_fail` on `none`),
then the `max_supported_ver` check, then shadowing and wrapper installation. -/
def SteamAPI_Init (e : InitEnv) : InitResult :=
  let p := initPhase e
  if p.1 = false then ⟨false, p.2.1, p.2.2⟩
  else
    match e.versionInfo with
    | none => ⟨false, p.2.1, p.2.2⟩
    | some v =>
      if max_supported_ver < v then ⟨false, p.2.1, p.2.2⟩
      else ⟨true, p.2.1, p.2.2 ++ shadowEvents v⟩

theorem initPhase_events_no_shadow (e : InitEnv) :
    ∀ ev ∈ (initPhase e).2.2, ∀ ifc : IfaceId,
      ev ≠ InitEvent.shadow ifc ∧ ev ≠ InitEvent.installWrappers := by
  unfold initPhase
  split_ifs <;> simp

theorem SteamAPI_Init_fail_events (e : InitEnv)
    (h : e.versionInfo = none ∨
      ∃ v, e.versionInfo = some v ∧ max_supported_ver < v) :
    (SteamAPI_Init e).ret = false ∧
    (SteamAPI_Init e).events = (initPhase e).2.2 := by
  unfold SteamAPI_Init
  rcases h with h | ⟨v, hv, hgt⟩
  · rw [h]
    by_cases hp : (initPhase e).1 = false <;> simp [hp]
  · rw [hv]
    by_cases hp : (initPhase e).1 = false <;> simp [hp, hgt]

/-- C6: on any version problem (unreadable version resource or probed version
above `max_supported_ver = 0x0009003C002C000A`) the init wrapper returns false
and its trace contains no interface shadowing and no wrapper installation. -/
theorem C6_fail_closed (e : InitEnv)
    (h : e.versionInfo = none ∨
      ∃ v, e.versionInfo = some v ∧ max_supported_ver < v) :
    (SteamAPI_Init e).ret = false ∧
    ∀ ev ∈ (SteamAPI_Init e).events, ∀ ifc : IfaceId,
      ev ≠ InitEvent.shadow ifc ∧ ev ≠ InitEvent.installWrappers := by
  obtain ⟨hret, hev⟩ := SteamAPI_Init_fail_events e h
  exact ⟨hret, hev ▸ initPhase_events_no_shadow e⟩

/-- C6 witness: a run whose version resource cannot be read returns false and
shadows nothing. -/
theorem C6_fail_closed_witness :
    (SteamAPI_Init ⟨480, 0, true, true, none⟩).ret = false ∧
    ∀ ev ∈ (SteamAPI_Init ⟨480, 0, true, true, none⟩).events,
      ∀ ifc : IfaceId,
        ev ≠ InitEvent.shadow ifc ∧ ev ≠ InitEvent.installWrappers :=
  C6_fail_closed ⟨480, 0, true, true, none⟩ (Or.inl rfl)

/-- C9 counterexample: with `spoof_app_id = 0`, a successful first vendor init
followed by a version-probe failure yields a FAILED run that has nevertheless
modified `spoof_app_id` (from 0 to `app_id`); and a successful run with
`app_id = 0` ends with `spoof_app_id = 0`, so a successful run does not always
leave it nonzero. -/
theorem C9_counterexample :
    (SteamAPI_Init ⟨730, 0, true, true, none⟩).ret = false ∧
    (SteamAPI_Init ⟨730, 0, true, true, none⟩).spoofAfter = 730 ∧
    (730 : Nat) ≠ 0 ∧
    (SteamAPI_Init ⟨0, 0, true, true, some 1⟩).ret = true ∧
    (SteamAPI_Init ⟨0, 0, true, true, some 1⟩).spoofAfter = 0 := by
  refine ⟨rfl, rfl, by decide, rfl, rfl⟩

theorem SteamAPI_Init_spoofAfter (e : InitEnv) :
    (SteamAPI_Init e).spoofAfter = (initPhase e).2.1 := by
  unfold SteamAPI_Init
  by_cases hp : (initPhase e).1 = false
  · simp [hp]
  · cases hvi : e.versionInfo with
    | none => simp [hp]
    | some v => by_cases hv : max_supported_ver < v <;> simp [hp, hv]

theorem initPhase_spoof (e : InitEnv) :
    (initPhase e).2.1 =
      if e.spoofAppId = 0 then
        (if e.origInitFirst then e.appId
         else if e.origInitFallback then 480 else 0)
      else e.spoofAppId := by
  unfold initPhase
  split_ifs <;> simp_all

theorem initPhase_succeeded (e : InitEnv) :
    (initPhase e).1 =
      if e.spoofAppId = 0 then (e.origInitFirst || e.origInitFallback)
      else e.origInitFirst := by
  unfold initPhase
  split_ifs <;> simp_all

theorem SteamAPI_Init_ret_imp (e : InitEnv) :
    (SteamAPI_Init e).ret = true → (initPhase e).1 = true := by
  unfold SteamAPI_Init
  by_cases hp : (initPhase e).1 = false
  · simp [hp]
  · intro _
    exact Bool.eq_true_of_not_eq_false hp

/-- C9 (amended): `spoof_app_id` nonzero on entry is never modified; when zero
and the first real init succeeds it becomes `app_id`; when zero, the first
attempt fails and the 480 fallback succeeds it becomes 480; after a successful
run it is nonzero provided `app_id` is nonzero; and a failed run leaves it
unchanged except when it was zero and a vendor init attempt succeeded but the
version probe then failed, in which case it has already been set to `app_id`
(first attempt) or 480 (fallback attempt). -/
theorem C9_spoof_update (e : InitEnv) :
    (e.spoofAppId ≠ 0 → (SteamAPI_Init e).spoofAfter = e.spoofAppId) ∧
    (e.spoofAppId = 0 → e.origInitFirst = true →
      (SteamAPI_Init e).spoofAfter = e.appId) ∧
    (e.spoofAppId = 0 → e.origInitFirst = false → e.origInitFallback = true →
      (SteamAPI_Init e).spoofAfter = 480) ∧
    ((SteamAPI_Init e).ret = true → e.appId ≠ 0 →
      (SteamAPI_Init e).spoofAfter ≠ 0) ∧
    ((SteamAPI_Init e).ret = false →
      (SteamAPI_Init e).spoofAfter = e.spoofAppId ∨
      (e.spoofAppId = 0 ∧ e.origInitFirst = true ∧
        (SteamAPI_Init e).spoofAfter = e.appId) ∨
      (e.spoofAppId = 0 ∧ e.origInitFirst = false ∧
        e.origInitFallback = true ∧ (SteamAPI_Init e).spoofAfter = 480)) := by
  rw [SteamAPI_Init_spoofAfter, initPhase_spoof]
  refine ⟨?_, ?_, ?_, ?_, ?_⟩
  · intro h
    simp [h]
  · intro hz hr1
    simp [hz, hr1]
  · intro hz hr1 hr2
    simp [hz, hr1, hr2]
  · intro hr hne
    have hp := SteamAPI_Init_ret_imp e hr
    rw [initPhase_succeeded] at hp
    by_cases hz : e.spoofAppId = 0
    · cases hr1 : e.origInitFirst with
      | true =>
        simp only [hz, hr1, if_true]
        simpa using hne
      | false =>
        have hp2 : e.origInitFallback = true := by
          simpa [hz, hr1] using hp
        simp [hz, hr1, hp2]
    · simp [hz]
  · intro hr
    by_cases hz : e.spoofAppId = 0
    · cases hr1 : e.origInitFirst with
      | true => exact Or.inr (Or.inl ⟨hz, rfl, by simp [hz, hr1]⟩)
      | false =>
        cases hr2 : e.origInitFallback with
        | true => exact Or.inr (Or.inr ⟨hz, rfl, rfl, by simp [hz, hr1, hr2]⟩)
        | false => exact Or.inl (by simp [hz, hr1, hr2])
    · exact Or.inl (by simp [hz])

/-- C9 witness: a nonzero `spoof_app_id` is preserved, and a zero one becomes
`app_id` when the first init succeeds. -/
theorem C9_spoof_update_witness :
    (SteamAPI_Init ⟨730, 0, true, true, some 1⟩).spoofAfter = 730 ∧
    (SteamAPI_Init ⟨731, 7, true, true, some 1⟩).spoofAfter = 7 :=
  ⟨(C9_spoof_update ⟨730, 0, true, true, some 1⟩).2.1 rfl rfl,
   (C9_spoof_update ⟨731, 7, true, true, some 1⟩).1 (by decide)⟩

/-! ### C3 and C8: ISteamApps interception functions (steam_api.cpp 45-93)

`SteamApps_BGetDLCDataByIndex` (lines 78-93) guards with
`if (idx < (int)dlc.size()) return false;` and only past that guard reads
`dlc[idx]` and fills the output parameters; an out-of-range vector access is
modelled as `none`.  `SteamApps_BIsSubscribedApp` (lines 48-56) answers `true`
for the configured application id or any id in the settings DLC list and
otherwise forwards to the captured original pointer. -/

/-- Values written through the output parameters of `BGetDLCDataByIndex`:
`*app_id`, `*available`, and the name copied into `name_buf` (up to
`name_buf_size - 1` characters plus terminator; `none` when
`name_buf_size <= 0`). -/
structure DlcOutputs where
  appId : Nat
  available : Bool
  nameWritten : Option String
deriving DecidableEq, Repr

/-- `SteamApps_BGetDLCDataByIndex`: result is the returned boolean together
with the outputs written (`none` = nothing written); the whole result is
`none` when the code would index the settings vector out of range. -/
def SteamApps_BGetDLCDataByIndex (dlc : List (Nat × String)) (idx : Int)
    (nameBufSize : Int) : Option (Bool × Option DlcOutputs) :=
  if idx < (dlc.length : Int) then some (false, none)
  else
    match dlc[idx.toNat]? with
    | some e =>
      some (true, some ⟨e.1, true,
        if 0 < nameBufSize then some (e.2.take (nameBufSize - 1).toNat)
        else none⟩)
    | none => none

/-- C3: for every in-range index (`0 <= idx < dlc.size()`) the wrapper returns
false immediately and writes none of its outputs; outputs are written only on
branches where `idx >= dlc.size()`. -/
theorem C3_dlc_enumeration (dlc : List (Nat × String)) (idx nameBufSize : Int) :
    (0 ≤ idx → idx < (dlc.length : Int) →
      SteamApps_BGetDLCDataByIndex dlc idx nameBufSize = some (false, none)) ∧
    (∀ b outs,
      SteamApps_BGetDLCDataByIndex dlc idx nameBufSize = some (b, some outs) →
      (dlc.length : Int) ≤ idx) := by
  constructor
  · intro _ hlt
    simp [SteamApps_BGetDLCDataByIndex, hlt]
  · intro b outs h
    by_cases hlt : idx < (dlc.length : Int)
    · simp [SteamApps_BGetDLCDataByIndex, hlt] at h
    · exact le_of_not_lt hlt

/-- C3 witness: with a one-element DLC list, index 0 returns false and writes
nothing. -/
theorem C3_dlc_enumeration_witness :
    SteamApps_BGetDLCDataByIndex [(42, "Addon")] 0 8 = some (false, none) :=
  (C3_dlc_enumeration [(42, "Addon")] 0 8).1 (by decide) (by decide)

/-- Result of one call of a wrap-and-forward boolean method: the returned
value and whether the captured original pointer was invoked. -/
structure BoolCall where
  result : Bool
  invokedOrig : Bool
deriving DecidableEq, Repr

/-- `SteamApps_BIsSubscribedApp`, parameterised by the settings snapshot
(`app_id`, DLC list) and the captured original function. -/
def SteamApps_BIsSubscribedApp (settingsAppId : Nat)
    (dlc : List (Nat × String)) (orig : Nat → Bool) (appId : Nat) : BoolCall :=
  if appId = settingsAppId ∨ appId ∈ dlc.map Prod.fst then ⟨true, false⟩
  else ⟨orig appId, true⟩

/-- C8: the ownership wrapper answers `true` without invoking the original for
the configured application id and for every id in the settings DLC list, and
for every other id invokes the original and returns its result unmodified. -/
theorem C8_wrap_and_forward (settingsAppId : Nat) (dlc : List (Nat × String))
    (orig : Nat → Bool) (appId : Nat) :
    ((appId = settingsAppId ∨ appId ∈ dlc.map Prod.fst) →
      SteamApps_BIsSubscribedApp settingsAppId dlc orig appId = ⟨true, false⟩) ∧
    (¬ (appId = settingsAppId ∨ appId ∈ dlc.map Prod.fst) →
      SteamApps_BIsSubscribedApp settingsAppId dlc orig appId
        = ⟨orig appId, true⟩) := by
  constructor
  · intro h
    unfold SteamApps_BIsSubscribedApp
    rw [if_pos h]
  · intro h
    unfold SteamApps_BIsSubscribedApp
    rw [if_neg h]

/-- Stand-in for the captured original `BIsSubscribedApp` pointer in the C8
scenario: it owns nothing. -/
def origStub : Nat → Bool := fun _ => false

/-- C8 witness (end-to-end scenario C): with a snapshot owning add-on 42,
id 42 answers true without forwarding, and id 99 forwards and returns the
original's (false) answer. -/
theorem C8_wrap_and_forward_witness :
    SteamApps_BIsSubscribedApp 346110 [(42, "Addon")] origStub 42
      = ⟨true, false⟩ ∧
    SteamApps_BIsSubscribedApp 346110 [(42, "Addon")] origStub 99
      = ⟨false, true⟩ :=
  ⟨(C8_wrap_and_forward 346110 [(42, "Addon")] origStub 42).1 (by decide),
   (C8_wrap_and_forward 346110 [(42, "Addon")] origStub 99).2 (by decide)⟩

/-! ### C10: workshop subscription bookkeeping (steam/346110.cpp 224-245)

`SteamUGC_SubscribeItem` does `ws_descs.try_emplace(id)` under the map lock
and calls `steamclient::install_workshop_item` only when the emplace actually
inserted; it always returns `id`.  Only the key set of `ws_descs` matters
here. -/

/-- Outcome of one `SubscribeItem` call: key set of `ws_descs` after the call,
whether an installation job was started, and the returned id. -/
structure SubscribeOutcome where
  descs : List Nat
  jobStarted : Bool
  ret : Nat
deriving DecidableEq, Repr

/-- `try_emplace` on the key set: inserts only when the key is absent and
reports whether it inserted. -/
def tryEmplaceKey (m : List Nat) (id : Nat) : List Nat × Bool :=
  if id ∈ m then (m, false) else (m ++ [id], true)

/-- `SteamUGC_SubscribeItem` on the tracked-job key set. -/
def SteamUGC_SubscribeItem (m : List Nat) (id : Nat) : SubscribeOutcome :=
  let p := tryEmplaceKey m id
  ⟨p.1, p.2, id⟩

/-- C10: subscription always returns its argument, starts a job exactly when
the id was not yet tracked, inserts exactly in that case, and a second call
with the same id changes nothing and starts no job. -/
theorem C10_subscribe_idempotent (m : List Nat) (id : Nat) :
    (SteamUGC_SubscribeItem m id).ret = id ∧
    ((SteamUGC_SubscribeItem m id).jobStarted = true ↔ id ∉ m) ∧
    ((SteamUGC_SubscribeItem m id).jobStarted = true →
      (SteamUGC_SubscribeItem m id).descs = m ++ [id]) ∧
    ((SteamUGC_SubscribeItem m id).jobStarted = false →
      (SteamUGC_SubscribeItem m id).descs = m) ∧
    (SteamUGC_SubscribeItem (SteamUGC_SubscribeItem m id).descs id).jobStarted
      = false ∧
    (SteamUGC_SubscribeItem (SteamUGC_SubscribeItem m id).descs id).descs
      = (SteamUGC_SubscribeItem m id).descs := by
  by_cases hmem : id ∈ m
  · simp [SteamUGC_SubscribeItem, tryEmplaceKey, hmem]
  · simp [SteamUGC_SubscribeItem, tryEmplaceKey, hmem]

/-- C10 witness: starting from an empty job map, subscribing item 5 starts a
job and tracks it, and subscribing 5 again starts nothing and keeps the map. -/
theorem C10_subscribe_idempotent_witness :
    (SteamUGC_SubscribeItem [] 5).ret = 5 ∧
    (SteamUGC_SubscribeItem [] 5).jobStarted = true ∧
    (SteamUGC_SubscribeItem [] 5).descs = [5] ∧
    (SteamUGC_SubscribeItem (SteamUGC_SubscribeItem [] 5).descs 5).jobStarted
      = false ∧
    (SteamUGC_SubscribeItem (SteamUGC_SubscribeItem [] 5).descs 5).descs
      = (SteamUGC_SubscribeItem [] 5).descs :=
  ⟨(C10_subscribe_idempotent [] 5).1,
   ((C10_subscribe_idempotent [] 5).2.1).mpr (by decide),
   (C10_subscribe_idempotent [] 5).2.2.1
     (((C10_subscribe_idempotent [] 5).2.1).mpr (by decide)),
   (C10_subscribe_idempotent [] 5).2.2.2.2.1,
   (C10_subscribe_idempotent [] 5).2.2.2.2.2⟩

end TekGameRuntime
